import Mathlib

/-!
Verification of the evaluation-and-decision core of the llm-eval-platform
repository against its specification.

Embedding conventions:
* Python floats are modelled as exact rationals (`ℚ`); the specification and the
  claims state the numeric formulas over real-number arithmetic.
* Python dicts that the code iterates over (`GateConfig.min_metric`,
  `max_drop_from_baseline`, the volatility map) are modelled as association
  lists in insertion order; a dict has distinct keys, which theorems assume
  through `Nodup` hypotheses where key lookup matters.
* Fallible Python code is modelled with `Except PyErr`; an `Except.error`
  value is an exception escaping the modelled function.
* Python `sorted` / `list.sort` are stable sorts; they are modelled with
  `List.insertionSort`, which is stable for a total preorder.
* The human-readable f-string messages built by the code (gate reasons, drift
  alert messages) are modelled by inductive types carrying the interpolated
  data; the program never inspects these strings except for list emptiness.
-/

namespace LlmEvalPlatform

/-- Python exception classes that the modelled code can raise or catch. -/
inductive PyErr where
  | jsonDecodeError
  | validationError
  | schemaError
  | typeError
  | attributeError
  | valueError
  deriving DecidableEq, Repr

/-- domain/models.py `ItemScore`. -/
structure ItemScore where
  exact_match : ℚ
  keyword_coverage : ℚ
  schema_valid : ℚ
  llm_judge_score : Option ℚ := none
  deriving DecidableEq, Repr

/-- domain/models.py `AggregateMetrics`. -/
structure AggregateMetrics where
  exact_match : ℚ
  keyword_coverage : ℚ
  schema_valid : ℚ
  llm_judge_score : Option ℚ := none
  sample_count : ℕ
  deriving DecidableEq, Repr

/-- domain/models.py `GateConfig`: both threshold maps are dicts from metric
name to float, modelled as association lists in insertion order. -/
structure GateConfig where
  baseline_run_id : Option String := none
  min_metric : List (String × ℚ) := []
  max_drop_from_baseline : List (String × ℚ) := []
  deriving DecidableEq, Repr

/-- One entry of `GateDecision.checks`: the code stores either
`{"passed": _, "value": _, "threshold": _}` (minimum-value checks) or
`{"passed": _, "drop": _, "max_drop": _}` (baseline-drop checks). -/
inductive CheckEntry where
  | minCheck (passed : Bool) (value threshold : ℚ)
  | dropCheck (passed : Bool) (drop maxDrop : ℚ)
  deriving DecidableEq, Repr

/-- The reason strings appended by `evaluate_gates`, modelled as an inductive
carrying the data interpolated into each f-string.  The program only ever
tests the reasons list for emptiness. -/
inductive Reason where
  | metricMissing (metric : String)
  | belowMinimum (metric : String) (value threshold : ℚ)
  | missingBaseline (metric : String)
  | droppedBelow (metric : String) (drop maxDrop : ℚ)
  deriving DecidableEq, Repr

/-- domain/models.py `GateDecision`.  `checks` is a dict in insertion order. -/
structure GateDecision where
  status : String
  reasons : List Reason := []
  checks : List (String × CheckEntry) := []
  deriving DecidableEq, Repr

/-- scoring/gates.py `_metric_value`: `getattr(metrics, metric_name, None)`
followed by an `isinstance(value, (int, float))` test.  The five fields of
`AggregateMetrics` are the only attributes; an absent judge score is `None`
(not a number), and `sample_count` is an int, cast to float. -/
def metricValue (metrics : AggregateMetrics) (metric_name : String) : Option ℚ :=
  if metric_name = "exact_match" then some metrics.exact_match
  else if metric_name = "keyword_coverage" then some metrics.keyword_coverage
  else if metric_name = "schema_valid" then some metrics.schema_valid
  else if metric_name = "llm_judge_score" then metrics.llm_judge_score
  else if metric_name = "sample_count" then some (metrics.sample_count : ℚ)
  else none

/-- scoring/gates.py `evaluate_gates`, first loop: the check recorded for one
`min_metric` entry. -/
def minMetricCheck (candidate : AggregateMetrics) (p : String × ℚ) : String × CheckEntry :=
  match metricValue candidate p.1 with
  | none => ("min_metric." ++ p.1, CheckEntry.minCheck false (-1) p.2)
  | some v => ("min_metric." ++ p.1, CheckEntry.minCheck (decide (v ≥ p.2)) v p.2)

/-- scoring/gates.py `evaluate_gates`, first loop: the reasons (zero or one)
appended for one `min_metric` entry. -/
def minMetricReasons (candidate : AggregateMetrics) (p : String × ℚ) : List Reason :=
  match metricValue candidate p.1 with
  | none => [Reason.metricMissing p.1]
  | some v => if v ≥ p.2 then [] else [Reason.belowMinimum p.1 v p.2]

/-- scoring/gates.py `evaluate_gates`, second loop:
`_metric_value(baseline, metric_name) if baseline else None`. -/
def baselineValue (baseline : Option AggregateMetrics) (metric_name : String) : Option ℚ :=
  match baseline with
  | none => none
  | some b => metricValue b metric_name

/-- scoring/gates.py `evaluate_gates`, second loop: the check recorded for one
`max_drop_from_baseline` entry. -/
def maxDropCheck (candidate : AggregateMetrics) (baseline : Option AggregateMetrics)
    (p : String × ℚ) : String × CheckEntry :=
  match metricValue candidate p.1, baselineValue baseline p.1 with
  | some cv, some bv =>
      ("max_drop." ++ p.1, CheckEntry.dropCheck (decide (bv - cv ≤ p.2)) (bv - cv) p.2)
  | some _, none => ("max_drop." ++ p.1, CheckEntry.dropCheck false 999 p.2)
  | none, _ => ("max_drop." ++ p.1, CheckEntry.dropCheck false 999 p.2)

/-- scoring/gates.py `evaluate_gates`, second loop: the reasons (zero or one)
appended for one `max_drop_from_baseline` entry. -/
def maxDropReasons (candidate : AggregateMetrics) (baseline : Option AggregateMetrics)
    (p : String × ℚ) : List Reason :=
  match metricValue candidate p.1, baselineValue baseline p.1 with
  | some cv, some bv => if bv - cv ≤ p.2 then [] else [Reason.droppedBelow p.1 (bv - cv) p.2]
  | some _, none => [Reason.missingBaseline p.1]
  | none, _ => [Reason.missingBaseline p.1]

/-- scoring/gates.py `evaluate_gates`.  Each loop iteration contributes exactly
one check and zero or one reasons, independently of the accumulated state, so
the two loops are the evident `map` / `flatMap`. -/
def evaluate_gates (candidate : AggregateMetrics) (gate_config : GateConfig)
    (baseline : Option AggregateMetrics := none) : GateDecision :=
  let reasons :=
    gate_config.min_metric.flatMap (minMetricReasons candidate)
      ++ gate_config.max_drop_from_baseline.flatMap (maxDropReasons candidate baseline)
  let checks :=
    gate_config.min_metric.map (minMetricCheck candidate)
      ++ gate_config.max_drop_from_baseline.map (maxDropCheck candidate baseline)
  { status := if reasons = [] then "pass" else "fail"
    reasons := reasons
    checks := checks }

/-- C1: `evaluate_gates` satisfies the gate postcondition.  For every configured
minimum-value threshold: an absent candidate metric records a failing check
with sentinel value −1.0 under key `min_metric.<name>` and adds a reason;
otherwise the recorded check passes iff value ≥ threshold, with a reason added
on failure.  For every configured max-drop threshold: an absent candidate or
baseline value (including `baseline = None`) records a failing check with
sentinel drop 999.0 under key `max_drop.<name>` and adds a reason; otherwise
the recorded drop is baseline − candidate and the check passes iff
drop ≤ max_drop, with a reason added on failure.  The overall status is
`"fail"` iff the reasons list is non-empty. -/
theorem evaluate_gates_postcondition (candidate : AggregateMetrics) (cfg : GateConfig)
    (baseline : Option AggregateMetrics) :
    (∀ p ∈ cfg.min_metric,
      (metricValue candidate p.1 = none →
        ("min_metric." ++ p.1, CheckEntry.minCheck false (-1) p.2)
            ∈ (evaluate_gates candidate cfg baseline).checks ∧
          Reason.metricMissing p.1 ∈ (evaluate_gates candidate cfg baseline).reasons) ∧
      (∀ v, metricValue candidate p.1 = some v →
        ("min_metric." ++ p.1, CheckEntry.minCheck (decide (v ≥ p.2)) v p.2)
            ∈ (evaluate_gates candidate cfg baseline).checks ∧
          (¬ v ≥ p.2 →
            Reason.belowMinimum p.1 v p.2 ∈ (evaluate_gates candidate cfg baseline).reasons)))
    ∧ (∀ p ∈ cfg.max_drop_from_baseline,
      ((metricValue candidate p.1 = none ∨ baselineValue baseline p.1 = none) →
        ("max_drop." ++ p.1, CheckEntry.dropCheck false 999 p.2)
            ∈ (evaluate_gates candidate cfg baseline).checks ∧
          Reason.missingBaseline p.1 ∈ (evaluate_gates candidate cfg baseline).reasons) ∧
      (∀ cv bv, metricValue candidate p.1 = some cv → baselineValue baseline p.1 = some bv →
        ("max_drop." ++ p.1, CheckEntry.dropCheck (decide (bv - cv ≤ p.2)) (bv - cv) p.2)
            ∈ (evaluate_gates candidate cfg baseline).checks ∧
          (¬ bv - cv ≤ p.2 →
            Reason.droppedBelow p.1 (bv - cv) p.2
              ∈ (evaluate_gates candidate cfg baseline).reasons)))
    ∧ ((evaluate_gates candidate cfg baseline).status = "fail"
        ↔ (evaluate_gates candidate cfg baseline).reasons ≠ []) := by
  refine ⟨?_, ?_, ?_⟩
  · intro p hp
    refine ⟨fun h => ⟨?_, ?_⟩, fun v hv => ⟨?_, fun hlt => ?_⟩⟩
    · exact List.mem_append_left _
        (List.mem_map.mpr ⟨p, hp, by simp [minMetricCheck, h]⟩)
    · exact List.mem_append_left _
        (List.mem_flatMap.mpr ⟨p, hp, by simp [minMetricReasons, h]⟩)
    · exact List.mem_append_left _
        (List.mem_map.mpr ⟨p, hp, by simp [minMetricCheck, hv]⟩)
    · exact List.mem_append_left _
        (List.mem_flatMap.mpr ⟨p, hp, by simp [minMetricReasons, hv, if_neg hlt]⟩)
  · intro p hp
    refine ⟨fun h => ⟨?_, ?_⟩, fun cv bv hcv hbv => ⟨?_, fun hgt => ?_⟩⟩
    · refine List.mem_append_right _ (List.mem_map.mpr ⟨p, hp, ?_⟩)
      rcases h with h | h
      · simp [maxDropCheck, h]
      · cases hcv : metricValue candidate p.1 <;> simp [maxDropCheck, h, hcv]
    · refine List.mem_append_right _ (List.mem_flatMap.mpr ⟨p, hp, ?_⟩)
      rcases h with h | h
      · simp [maxDropReasons, h]
      · cases hcv : metricValue candidate p.1 <;> simp [maxDropReasons, h, hcv]
    · exact List.mem_append_right _
        (List.mem_map.mpr ⟨p, hp, by simp [maxDropCheck, hcv, hbv]⟩)
    · exact List.mem_append_right _
        (List.mem_flatMap.mpr ⟨p, hp, by simp only [maxDropReasons, hcv, hbv, if_neg hgt]; simp⟩)
  · by_cases h : (cfg.min_metric.flatMap (minMetricReasons candidate)
        ++ cfg.max_drop_from_baseline.flatMap (maxDropReasons candidate baseline)) = []
    · have hs : (evaluate_gates candidate cfg baseline).status = "pass" := by
        simp [evaluate_gates, h]
      have hr : (evaluate_gates candidate cfg baseline).reasons = [] := h
      rw [hs, hr]
      exact iff_of_false (by decide) (by simp)
    · have hs : (evaluate_gates candidate cfg baseline).status = "fail" := by
        simp [evaluate_gates, h]
      exact iff_of_true hs h

/-- Concrete instantiation of C1: a candidate whose `exact_match` is 0.6
against a minimum of 0.5 and a missing-baseline drop gate. -/
theorem evaluate_gates_postcondition_witness :
    ("min_metric.exact_match", CheckEntry.minCheck true (6/10) (1/2))
        ∈ (evaluate_gates ⟨6/10, 7/10, 1, none, 10⟩
            ⟨none, [("exact_match", 1/2)], [("schema_valid", 1/10)]⟩ none).checks ∧
      Reason.missingBaseline "schema_valid"
        ∈ (evaluate_gates ⟨6/10, 7/10, 1, none, 10⟩
            ⟨none, [("exact_match", 1/2)], [("schema_valid", 1/10)]⟩ none).reasons := by
  have h := evaluate_gates_postcondition ⟨6/10, 7/10, 1, none, 10⟩
    ⟨none, [("exact_match", 1/2)], [("schema_valid", 1/10)]⟩ none
  constructor
  · have hmem := (h.1 ("exact_match", 1/2) (by simp)).2 (6/10) rfl
    have hd : decide ((6/10 : ℚ) ≥ 1/2) = true := decide_eq_true (by norm_num)
    have hc := hmem.1
    rw [hd] at hc
    exact hc
  · exact ((h.2.1 ("schema_valid", 1/10) (by simp)).1 (Or.inr rfl)).2

/-- The f-string messages of analysis.py drift alerts, modelled as an
inductive carrying the interpolated data. -/
inductive AlertMsg where
  | droppedBy (metric : String) (drop allowed : ℚ)
  | nearingThreshold (metric : String) (drop : ℚ)
  | highVolatility (metric : String) (std : ℚ)
  deriving DecidableEq, Repr

/-- One drift-alert dict built by analysis.py `build_drift_alerts`.  The two
baseline-drop alert shapes carry `delta` and `threshold` keys; the volatility
alert shape does not (`none` here). -/
structure Alert where
  scope : String
  metric : String
  severity : String
  delta : Option ℚ := none
  threshold : Option ℚ := none
  message : AlertMsg
  deriving DecidableEq, Repr

/-- analysis.py `compute_release_status`: `if drift_alerts:` is list
truthiness, i.e. non-emptiness. -/
def compute_release_status (gate_decision : GateDecision) (drift_alerts : List Alert) : String :=
  if gate_decision.status = "fail" then "BLOCKED"
  else if drift_alerts ≠ [] then "DRIFT_WARNING"
  else "APPROVED"

/-- analysis.py `build_drift_alerts`: `float(getattr(metrics, metric))` with no
getattr default — an unknown attribute raises `AttributeError` and
`float(None)` (an absent judge score) raises `TypeError`. -/
def getattrFloat (metrics : AggregateMetrics) (metric : String) : Except PyErr ℚ :=
  if metric = "exact_match" then Except.ok metrics.exact_match
  else if metric = "keyword_coverage" then Except.ok metrics.keyword_coverage
  else if metric = "schema_valid" then Except.ok metrics.schema_valid
  else if metric = "llm_judge_score" then
    match metrics.llm_judge_score with
    | some v => Except.ok v
    | none => Except.error PyErr.typeError
  else if metric = "sample_count" then Except.ok (metrics.sample_count : ℚ)
  else Except.error PyErr.attributeError

/-- The `"critical"` alert dict appended when `drop > threshold`. -/
def criticalDropAlert (p : String × ℚ) (drop : ℚ) : Alert :=
  { scope := "global", metric := p.1, severity := "critical",
    delta := some (-drop), threshold := some (-p.2),
    message := AlertMsg.droppedBy p.1 drop p.2 }

/-- The `"warning"` alert dict appended when `drop > threshold * 0.7`. -/
def nearingDropAlert (p : String × ℚ) (drop : ℚ) : Alert :=
  { scope := "global", metric := p.1, severity := "warning",
    delta := some (-drop), threshold := some (-p.2),
    message := AlertMsg.nearingThreshold p.1 drop }

/-- analysis.py `build_drift_alerts`, first loop: the alerts (zero or one)
appended for one `max_drop_from_baseline` entry; `continue` when baseline is
absent.  Python's `0.7` and the comparison are modelled in exact rational
arithmetic. -/
def dropAlertsFor (baseline : Option AggregateMetrics) (candidate : AggregateMetrics)
    (p : String × ℚ) : Except PyErr (List Alert) :=
  match baseline with
  | none => Except.ok []
  | some b => do
    let base ← getattrFloat b p.1
    let cand ← getattrFloat candidate p.1
    let drop := base - cand
    if drop > p.2 then
      Except.ok [criticalDropAlert p drop]
    else if drop > p.2 * (7/10) then
      Except.ok [nearingDropAlert p drop]
    else
      Except.ok []

/-- analysis.py `build_drift_alerts`, first loop over the
`max_drop_from_baseline` dict: an uncaught exception aborts the whole call. -/
def dropAlertsLoop (baseline : Option AggregateMetrics) (candidate : AggregateMetrics) :
    List (String × ℚ) → Except PyErr (List Alert)
  | [] => Except.ok []
  | p :: rest => do
    let here ← dropAlertsFor baseline candidate p
    let tail ← dropAlertsLoop baseline candidate rest
    Except.ok (here ++ tail)

/-- The `"warning"` alert dict appended for a high-volatility metric; it has
no `delta` or `threshold` key. -/
def volatilityAlert (q : String × ℚ) : Alert :=
  { scope := "global", metric := q.1, severity := "warning",
    message := AlertMsg.highVolatility q.1 q.2 }

/-- analysis.py `build_drift_alerts`, second loop: a `"warning"` alert for
every metric whose volatility exceeds 0.15 (= 3/20); this loop cannot raise. -/
def volatilityAlerts (volatility : List (String × ℚ)) : List Alert :=
  volatility.filterMap fun q =>
    if q.2 > 3/20 then some (volatilityAlert q) else none

/-- analysis.py `build_drift_alerts`: baseline-drop alerts in dict order, then
volatility alerts in dict order. -/
def build_drift_alerts (baseline : Option AggregateMetrics) (candidate : AggregateMetrics)
    (volatility : List (String × ℚ)) (max_drop_from_baseline : List (String × ℚ)) :
    Except PyErr (List Alert) := do
  let dropAlerts ← dropAlertsLoop baseline candidate max_drop_from_baseline
  Except.ok (dropAlerts ++ volatilityAlerts volatility)

/-- C2: `compute_release_status` returns BLOCKED when the gate decision failed;
otherwise DRIFT_WARNING when there is at least one drift alert; otherwise
APPROVED — for every gate decision and every alert list. -/
theorem compute_release_status_spec (gd : GateDecision) (alerts : List Alert) :
    (gd.status = "fail" → compute_release_status gd alerts = "BLOCKED")
    ∧ (gd.status ≠ "fail" → alerts ≠ [] → compute_release_status gd alerts = "DRIFT_WARNING")
    ∧ (gd.status ≠ "fail" → alerts = [] → compute_release_status gd alerts = "APPROVED") := by
  refine ⟨fun h => ?_, fun h ha => ?_, fun h ha => ?_⟩
  · simp [compute_release_status, h]
  · simp [compute_release_status, h, ha]
  · simp [compute_release_status, h, ha]

/-- Concrete instantiation of C2: a failing gate is BLOCKED even with no
alerts, a passing gate with one alert is DRIFT_WARNING. -/
theorem compute_release_status_spec_witness :
    compute_release_status ⟨"fail", [], []⟩ [] = "BLOCKED"
      ∧ compute_release_status ⟨"pass", [], []⟩
          [{ scope := "global", metric := "exact_match", severity := "warning",
             message := AlertMsg.highVolatility "exact_match" (1/5) }] = "DRIFT_WARNING" := by
  exact ⟨(compute_release_status_spec ⟨"fail", [], []⟩ []).1 rfl,
    (compute_release_status_spec ⟨"pass", [], []⟩ _).2.1 (by decide) (by simp)⟩

/-- Evaluation of `dropAlertsFor` when both metric values are present. -/
lemma dropAlertsFor_eq (b candidate : AggregateMetrics) (p : String × ℚ) (bv cv : ℚ)
    (hbv : getattrFloat b p.1 = Except.ok bv)
    (hcv : getattrFloat candidate p.1 = Except.ok cv) :
    dropAlertsFor (some b) candidate p =
      Except.ok (if bv - cv > p.2 then [criticalDropAlert p (bv - cv)]
        else if bv - cv > p.2 * (7/10) then [nearingDropAlert p (bv - cv)] else []) := by
  simp only [dropAlertsFor, hbv, hcv, bind, Except.bind]
  split_ifs <;> rfl

/-- Inversion for `dropAlertsFor` with a present baseline: a successful call
means both metric lookups succeeded and the result is the branch the drop
selects. -/
lemma dropAlertsFor_ok_inv (b candidate : AggregateMetrics) (p : String × ℚ)
    (here : List Alert) (h : dropAlertsFor (some b) candidate p = Except.ok here) :
    ∃ bv cv, getattrFloat b p.1 = Except.ok bv ∧ getattrFloat candidate p.1 = Except.ok cv ∧
      here = (if bv - cv > p.2 then [criticalDropAlert p (bv - cv)]
        else if bv - cv > p.2 * (7/10) then [nearingDropAlert p (bv - cv)] else []) := by
  cases hbv : getattrFloat b p.1 with
  | error e =>
    simp only [dropAlertsFor, hbv, bind, Except.bind] at h
    exact Except.noConfusion h
  | ok bv =>
    cases hcv : getattrFloat candidate p.1 with
    | error e =>
      simp only [dropAlertsFor, hbv, hcv, bind, Except.bind] at h
      exact Except.noConfusion h
    | ok cv =>
      rw [dropAlertsFor_eq b candidate p bv cv hbv hcv] at h
      exact ⟨bv, cv, rfl, rfl, (Except.ok.inj h).symm⟩

/-- Provenance of a baseline-drop alert: every alert produced by the first loop
of `build_drift_alerts` comes from a config entry whose metric values are both
present, and is the critical alert (with `drop > threshold`) or the nearing
warning (with `threshold * 0.7 < drop ≤ threshold`) of that entry. -/
lemma dropAlertsLoop_mem (b candidate : AggregateMetrics) (cfg : List (String × ℚ))
    (l : List Alert) (hok : dropAlertsLoop (some b) candidate cfg = Except.ok l) :
    ∀ a ∈ l, ∃ p ∈ cfg, ∃ bv cv, getattrFloat b p.1 = Except.ok bv ∧
      getattrFloat candidate p.1 = Except.ok cv ∧
      ((bv - cv > p.2 ∧ a = criticalDropAlert p (bv - cv)) ∨
        (bv - cv ≤ p.2 ∧ bv - cv > p.2 * (7/10) ∧ a = nearingDropAlert p (bv - cv))) := by
  induction cfg generalizing l with
  | nil =>
    simp only [dropAlertsLoop] at hok
    cases hok
    intro a ha
    exact absurd ha (List.not_mem_nil a)
  | cons p rest ih =>
    simp only [dropAlertsLoop, bind, Except.bind] at hok
    cases hhere : dropAlertsFor (some b) candidate p with
    | error e => rw [hhere] at hok; cases hok
    | ok here =>
      rw [hhere] at hok
      cases htail : dropAlertsLoop (some b) candidate rest with
      | error e => rw [htail] at hok; cases hok
      | ok tail =>
        rw [htail] at hok
        cases hok
        intro a ha
        rcases List.mem_append.mp ha with hmem | hmem
        · rcases dropAlertsFor_ok_inv b candidate p here hhere with ⟨bv, cv, hbv, hcv, hh⟩
          subst hh
          refine ⟨p, List.mem_cons_self p rest, bv, cv, hbv, hcv, ?_⟩
          by_cases h1 : bv - cv > p.2
          · rw [if_pos h1] at hmem
            rcases List.mem_singleton.mp hmem with rfl
            exact Or.inl ⟨h1, rfl⟩
          · rw [if_neg h1] at hmem
            by_cases h2 : bv - cv > p.2 * (7/10)
            · rw [if_pos h2] at hmem
              rcases List.mem_singleton.mp hmem with rfl
              exact Or.inr ⟨le_of_not_lt h1, h2, rfl⟩
            · rw [if_neg h2] at hmem
              exact absurd hmem (List.not_mem_nil a)
        · rcases ih tail htail a hmem with ⟨q, hq, hrest⟩
          exact ⟨q, List.mem_cons_of_mem p hq, hrest⟩

/-- Membership transfer: the alerts of one config entry all appear in the
result of the first loop of `build_drift_alerts`. -/
lemma dropAlertsLoop_sub (b candidate : AggregateMetrics) (cfg : List (String × ℚ))
    (l : List Alert) (hok : dropAlertsLoop (some b) candidate cfg = Except.ok l) :
    ∀ p ∈ cfg, ∃ here, dropAlertsFor (some b) candidate p = Except.ok here ∧
      ∀ a ∈ here, a ∈ l := by
  induction cfg generalizing l with
  | nil => intro p hp; exact absurd hp (List.not_mem_nil p)
  | cons q rest ih =>
    simp only [dropAlertsLoop, bind, Except.bind] at hok
    cases hhere : dropAlertsFor (some b) candidate q with
    | error e => rw [hhere] at hok; cases hok
    | ok here =>
      rw [hhere] at hok
      cases htail : dropAlertsLoop (some b) candidate rest with
      | error e => rw [htail] at hok; cases hok
      | ok tail =>
        rw [htail] at hok
        cases hok
        intro p hp
        rcases List.mem_cons.mp hp with rfl | hp
        · exact ⟨here, hhere, fun a ha => List.mem_append_left _ ha⟩
        · rcases ih tail htail p hp with ⟨h2, hh2, hsub⟩
          exact ⟨h2, hh2, fun a ha => List.mem_append_right _ (hsub a ha)⟩

/-- Every volatility alert has severity `"warning"` and carries no delta or
threshold key. -/
lemma volatilityAlerts_mem (vol : List (String × ℚ)) :
    ∀ a ∈ volatilityAlerts vol, ∃ q ∈ vol, q.2 > 3/20 ∧ a = volatilityAlert q := by
  intro a ha
  rcases List.mem_filterMap.mp ha with ⟨q, hq, hins⟩
  by_cases h : q.2 > 3/20
  · rw [if_pos h] at hins
    cases hins
    exact ⟨q, hq, h, rfl⟩
  · rw [if_neg h] at hins
    cases hins

/-- Distinct keys in an association list force entries with equal keys to be
the same entry. -/
lemma eq_of_mem_of_nodup_keys {β : Type} (l : List (String × β))
    (hnd : (l.map Prod.fst).Nodup) {p q : String × β} (hp : p ∈ l) (hq : q ∈ l)
    (hfst : p.1 = q.1) : p = q := by
  induction l with
  | nil => exact absurd hp (List.not_mem_nil p)
  | cons x rest ih =>
    have hnd2 : (x.1 :: rest.map Prod.fst).Nodup := by
      rw [List.map_cons] at hnd
      exact hnd
    have hx := (List.nodup_cons.mp hnd2).1
    have hrest := (List.nodup_cons.mp hnd2).2
    rcases List.mem_cons.mp hp with rfl | hp2
    · rcases List.mem_cons.mp hq with rfl | hq2
      · rfl
      · rw [hfst] at hx
        exact absurd (List.mem_map_of_mem Prod.fst hq2) hx
    · rcases List.mem_cons.mp hq with rfl | hq2
      · rw [← hfst] at hx
        exact absurd (List.mem_map_of_mem Prod.fst hp2) hx
      · exact ih hrest hp2 hq2

/-- C3: `build_drift_alerts` alert rules.  For every metric configured with a
max-allowed-drop whose baseline and candidate values are present (drop =
baseline − candidate): a `"critical"` alert is emitted when drop > threshold, a
`"warning"` (nearing) alert when threshold × 0.7 < drop ≤ threshold, and — for
a duplicate-free config — every baseline-drop alert for that metric is one of
those two, so no drop alert exists otherwise.  Separately every metric with
volatility > 0.15 yields a `"warning"` alert, and every `"critical"` alert in
the result comes from a configured metric whose drop exceeds its threshold. -/
theorem build_drift_alerts_severity_rules (b candidate : AggregateMetrics)
    (vol cfg : List (String × ℚ)) :
    ∀ alerts, build_drift_alerts (some b) candidate vol cfg = Except.ok alerts →
      (∀ p ∈ cfg, ∀ bv cv, getattrFloat b p.1 = Except.ok bv →
          getattrFloat candidate p.1 = Except.ok cv →
          (bv - cv > p.2 → criticalDropAlert p (bv - cv) ∈ alerts) ∧
          (p.2 * (7/10) < bv - cv → bv - cv ≤ p.2 → nearingDropAlert p (bv - cv) ∈ alerts) ∧
          ((cfg.map Prod.fst).Nodup → ∀ a ∈ alerts, a.metric = p.1 → a.delta.isSome = true →
            (bv - cv > p.2 ∧ a = criticalDropAlert p (bv - cv)) ∨
              (p.2 * (7/10) < bv - cv ∧ bv - cv ≤ p.2 ∧ a = nearingDropAlert p (bv - cv))))
      ∧ (∀ q ∈ vol, q.2 > 3/20 → volatilityAlert q ∈ alerts)
      ∧ (∀ a ∈ alerts, a.severity = "critical" →
          ∃ p ∈ cfg, ∃ bv cv, getattrFloat b p.1 = Except.ok bv ∧
            getattrFloat candidate p.1 = Except.ok cv ∧ bv - cv > p.2 ∧
            a = criticalDropAlert p (bv - cv)) := by
  intro alerts hok
  simp only [build_drift_alerts, bind, Except.bind] at hok
  cases hloop : dropAlertsLoop (some b) candidate cfg with
  | error e => rw [hloop] at hok; exact Except.noConfusion hok
  | ok l =>
    rw [hloop] at hok
    have halerts : alerts = l ++ volatilityAlerts vol := (Except.ok.inj hok).symm
    subst halerts
    refine ⟨?_, ?_, ?_⟩
    · intro p hp bv cv hbv hcv
      rcases dropAlertsLoop_sub b candidate cfg l hloop p hp with ⟨here, hhere, hsub⟩
      rw [dropAlertsFor_eq b candidate p bv cv hbv hcv] at hhere
      have hh := (Except.ok.inj hhere).symm
      refine ⟨fun h1 => ?_, fun h2 h3 => ?_, fun hnd a ha hmet hdelta => ?_⟩
      · rw [hh, if_pos h1] at hsub
        exact List.mem_append_left _ (hsub _ (List.mem_singleton_self _))
      · rw [hh, if_neg (not_lt.mpr h3), if_pos h2] at hsub
        exact List.mem_append_left _ (hsub _ (List.mem_singleton_self _))
      · rcases List.mem_append.mp ha with hal | hav
        · rcases dropAlertsLoop_mem b candidate cfg l hloop a hal
            with ⟨q, hq, bv2, cv2, hbv2, hcv2, hcase⟩
          have hqmet : a.metric = q.1 := by
            rcases hcase with ⟨_, rfl⟩ | ⟨_, _, rfl⟩ <;> rfl
          have hqp : q = p := eq_of_mem_of_nodup_keys cfg hnd hq hp (hqmet ▸ hmet)
          subst hqp
          have hbv' : bv2 = bv := Except.ok.inj (hbv2.symm.trans hbv)
          have hcv' : cv2 = cv := Except.ok.inj (hcv2.symm.trans hcv)
          subst hbv'
          subst hcv'
          rcases hcase with ⟨hgt, rfl⟩ | ⟨hle, hband, rfl⟩
          · exact Or.inl ⟨hgt, rfl⟩
          · exact Or.inr ⟨hband, hle, rfl⟩
        · rcases volatilityAlerts_mem vol a hav with ⟨q, _, _, rfl⟩
          simp [volatilityAlert] at hdelta
    · intro q hq hstd
      refine List.mem_append_right _ (List.mem_filterMap.mpr ⟨q, hq, ?_⟩)
      rw [if_pos hstd]
    · intro a ha hsev
      rcases List.mem_append.mp ha with hal | hav
      · rcases dropAlertsLoop_mem b candidate cfg l hloop a hal
          with ⟨p, hp, bv, cv, hbv, hcv, hcase⟩
        rcases hcase with ⟨hgt, rfl⟩ | ⟨_, _, rfl⟩
        · exact ⟨p, hp, bv, cv, hbv, hcv, hgt, rfl⟩
        · simp [nearingDropAlert] at hsev
      · rcases volatilityAlerts_mem vol a hav with ⟨q, _, _, rfl⟩
        simp [volatilityAlert] at hsev

/-- Concrete instantiation of C3: baseline 0.8 vs candidate 0.6 with allowed
drop 0.1 emits the critical alert; volatility 0.2 > 0.15 emits the warning. -/
theorem build_drift_alerts_severity_rules_witness :
    ∃ alerts, build_drift_alerts (some ⟨8/10, 8/10, 1, none, 10⟩) ⟨6/10, 7/10, 1, none, 10⟩
        [("exact_match", 1/5)] [("exact_match", 1/10)] = Except.ok alerts ∧
      criticalDropAlert ("exact_match", 1/10) ((8/10 : ℚ) - 6/10) ∈ alerts ∧
      volatilityAlert ("exact_match", 1/5) ∈ alerts := by
  have hfor := dropAlertsFor_eq ⟨8/10, 8/10, 1, none, 10⟩ ⟨6/10, 7/10, 1, none, 10⟩
    ("exact_match", 1/10) (8/10) (6/10) rfl rfl
  rw [if_pos (show (8/10 : ℚ) - 6/10 > 1/10 by norm_num)] at hfor
  have hloop : dropAlertsLoop (some ⟨8/10, 8/10, 1, none, 10⟩) ⟨6/10, 7/10, 1, none, 10⟩
      [("exact_match", 1/10)] =
        Except.ok [criticalDropAlert ("exact_match", 1/10) ((8/10 : ℚ) - 6/10)] := by
    simp only [dropAlertsLoop, hfor, bind, Except.bind, List.append_nil]
  have hvol : volatilityAlerts [("exact_match", (1/5 : ℚ))] =
      [volatilityAlert ("exact_match", 1/5)] := by
    simp only [volatilityAlerts, List.filterMap_cons, List.filterMap_nil]
    rw [if_pos (show (1/5 : ℚ) > 3/20 by norm_num)]
  have hok : build_drift_alerts (some ⟨8/10, 8/10, 1, none, 10⟩) ⟨6/10, 7/10, 1, none, 10⟩
      [("exact_match", 1/5)] [("exact_match", 1/10)] =
        Except.ok ([criticalDropAlert ("exact_match", 1/10) ((8/10 : ℚ) - 6/10)]
          ++ [volatilityAlert ("exact_match", 1/5)]) := by
    simp only [build_drift_alerts, hloop, bind, Except.bind, hvol]
  have h := build_drift_alerts_severity_rules ⟨8/10, 8/10, 1, none, 10⟩ ⟨6/10, 7/10, 1, none, 10⟩
    [("exact_match", 1/5)] [("exact_match", 1/10)] _ hok
  refine ⟨_, hok, ?_, ?_⟩
  · exact (h.1 ("exact_match", 1/10) (by simp) (8/10) (6/10) rfl rfl).1 (by norm_num)
  · exact h.2.1 ("exact_match", 1/5) (by simp) (by norm_num)

/-- The first loop of `build_drift_alerts` contributes nothing when the
baseline is absent: every iteration hits `continue`. -/
lemma dropAlertsLoop_none (candidate : AggregateMetrics) (cfg : List (String × ℚ)) :
    dropAlertsLoop none candidate cfg = Except.ok [] := by
  induction cfg with
  | nil => rfl
  | cons p rest ih =>
    simp only [dropAlertsLoop, dropAlertsFor, bind, Except.bind, ih, List.nil_append]

/-- C10: with `baseline = None`, `build_drift_alerts` emits no baseline-drop
alert at all — even when `max_drop_from_baseline` configures metrics — and
never raises; the result is exactly the volatility warnings, so every alert
has severity `"warning"` (carrying no delta/threshold keys) and none is
`"critical"`. -/
theorem build_drift_alerts_no_baseline (candidate : AggregateMetrics)
    (vol cfg : List (String × ℚ)) :
    build_drift_alerts none candidate vol cfg = Except.ok (volatilityAlerts vol)
    ∧ (∀ a ∈ volatilityAlerts vol,
        a.severity = "warning" ∧ a.delta = none ∧ a.threshold = none)
    ∧ (∀ a ∈ volatilityAlerts vol, a.severity ≠ "critical") := by
  refine ⟨?_, ?_, ?_⟩
  · simp only [build_drift_alerts, dropAlertsLoop_none, bind, Except.bind, List.nil_append]
  · intro a ha
    rcases volatilityAlerts_mem vol a ha with ⟨q, _, _, rfl⟩
    exact ⟨rfl, rfl, rfl⟩
  · intro a ha
    rcases volatilityAlerts_mem vol a ha with ⟨q, _, _, rfl⟩
    simp [volatilityAlert]

/-- analysis.py `p95`: `sorted(values)` is modelled by the stable ascending
`insertionSort`; `int(math.ceil(0.95 * n)) - 1` is the rational ceiling, as
the specification states the formula over real arithmetic; the index is then
clamped into `[0, n-1]`.  Indexing a non-empty sorted list at the clamped
index always succeeds, hence `none` only for the empty list. -/
def p95 (values : List ℚ) : Option ℚ :=
  if values = [] then none
  else
    let ordered := List.insertionSort (· ≤ ·) values
    let idx : ℤ := ⌈(95/100 : ℚ) * ordered.length⌉ - 1
    ordered[(max 0 (min idx (ordered.length - 1))).toNat]?

/-- C7: for a non-empty list, `p95` returns the element of the ascending-sorted
list at index clamp(ceil(0.95 × n) − 1, 0, n − 1) (real arithmetic in the
index formula) and never returns `none`; a sorted 10-element list yields its
last element; a singleton yields its element; the empty list yields `none`. -/
theorem p95_spec (values : List ℚ) :
    (values = [] → p95 values = none)
    ∧ (values ≠ [] → ∃ ordered, values.Perm ordered ∧ ordered.Sorted (· ≤ ·) ∧
        p95 values = ordered[(max 0 (min (⌈(95/100 : ℚ) * values.length⌉ - 1)
          ((values.length : ℤ) - 1))).toNat]? ∧ ∃ x, p95 values = some x)
    ∧ (values.length = 10 → values.Sorted (· ≤ ·) → p95 values = values.getLast?)
    ∧ (∀ x : ℚ, p95 [x] = some x) := by
  refine ⟨fun h => by simp [p95, h], fun h => ?_, fun hlen hsort => ?_, fun x => ?_⟩
  · refine ⟨List.insertionSort (· ≤ ·) values,
      (List.perm_insertionSort _ values).symm, List.sorted_insertionSort _ values, ?_, ?_⟩
    · simp only [p95, if_neg h, List.length_insertionSort]
    · have hn : 1 ≤ values.length := List.length_pos.mpr h
      have hlen2 : (List.insertionSort (· ≤ ·) values).length = values.length :=
        List.length_insertionSort _ values
      set k : ℤ := ⌈(95/100 : ℚ) * (List.insertionSort (· ≤ ·) values).length⌉ - 1 with hk
      have hc1 : (0:ℤ) ≤ max 0 (min k ((List.insertionSort (· ≤ ·) values).length - 1)) :=
        le_max_left _ _
      have hc2 : max 0 (min k ((List.insertionSort (· ≤ ·) values).length - 1)) ≤
          (List.insertionSort (· ≤ ·) values).length - 1 := by
        refine max_le ?_ (min_le_right _ _)
        rw [hlen2]
        omega
      have hidx : (max 0 (min k ((List.insertionSort (· ≤ ·) values).length - 1))).toNat <
          (List.insertionSort (· ≤ ·) values).length := by
        rw [hlen2] at hc2 ⊢
        omega
      refine ⟨(List.insertionSort (· ≤ ·) values).get ⟨_, hidx⟩, ?_⟩
      simp only [p95, if_neg h]
      rw [List.getElem?_eq_getElem hidx]
      simp
  · have h : values ≠ [] := by
      intro hnil
      rw [hnil] at hlen
      simp at hlen
    have hso : List.insertionSort (· ≤ ·) values = values := hsort.insertionSort_eq
    have h192 : (⌈(19/2 : ℚ)⌉ : ℤ) = 10 := by
      rw [Int.ceil_eq_iff]
      constructor <;> norm_num
    rw [List.getLast?_eq_getElem?, hlen]
    simp only [p95, if_neg h, hso, hlen]
    norm_num [h192]
    rfl
  · have h95 : (⌈(95/100 : ℚ)⌉ : ℤ) = 1 := by
      rw [Int.ceil_eq_iff]
      constructor <;> norm_num
    simp only [p95, List.insertionSort, List.orderedInsert]
    norm_num [h95]

/-- Concrete instantiation of C7, the spec's example: the p95 of the ascending
10-element list 10..100 is its last element, 100. -/
theorem p95_spec_witness :
    p95 [10, 20, 30, 40, 50, 60, 70, 80, 90, 100] = some 100 := by
  have h := (p95_spec [10, 20, 30, 40, 50, 60, 70, 80, 90, 100]).2.2.1 rfl
    (by norm_num [List.sorted_cons])
  rw [h]
  rfl

/-- domain/models.py `ItemResult` (fields in source order). -/
structure ItemResult where
  run_id : String
  item_id : String
  prompt : String
  output_text : String
  expected_answer : Option String := none
  keywords : List String := []
  error : Option String := none
  latency_ms : Option ℚ := none
  token_in_est : Option ℤ := none
  token_out_est : Option ℤ := none
  schema_error : Option String := none
  keyword_misses : List String := []
  scores : ItemScore
  tags : List (String × String) := []
  deriving DecidableEq, Repr

/-- domain/models.py `FailureSample`. -/
structure FailureSample where
  item_id : String
  severity : ℚ
  expected_answer : Option String
  output_text : String
  error : Option String
  schema_error : Option String
  keyword_misses : List String
  scores : ItemScore
  tags : List (String × String) := []
  deriving DecidableEq, Repr

/-- Python truthiness of an optional string (`if row.error:`): `None` and the
empty string are falsy. -/
def pyTruthy (o : Option String) : Bool :=
  match o with
  | none => false
  | some s => s != ""

/-- analysis.py `worst_failures` loop body: the severity accumulation and the
`FailureSample` built for one item, in source order. -/
def failureSample (row : ItemResult) : FailureSample :=
  let severity : ℚ :=
    ((((0 + (if pyTruthy row.error then 4 else 0))
      + (if pyTruthy row.schema_error then 3 else 0))
      + (1 - row.scores.exact_match) * 2)
      + (1 - row.scores.keyword_coverage) * 2)
      + (1 - row.scores.schema_valid) * 3
  { item_id := row.item_id
    severity := severity
    expected_answer := row.expected_answer
    output_text := row.output_text
    error := row.error
    schema_error := row.schema_error
    keyword_misses := row.keyword_misses
    scores := row.scores
    tags := row.tags }

/-- The ordering used by `ranked.sort(key=lambda row: row.severity,
reverse=True)`: `a` may come before `b` iff `a.severity ≥ b.severity`. -/
def severityGE (a b : FailureSample) : Prop := b.severity ≤ a.severity

instance : DecidableRel severityGE := fun a b =>
  inferInstanceAs (Decidable (b.severity ≤ a.severity))

instance : IsTotal FailureSample severityGE :=
  ⟨fun a b => le_total b.severity a.severity⟩

instance : IsTrans FailureSample severityGE :=
  ⟨fun _ _ _ hab hbc => le_trans hbc hab⟩

/-- analysis.py `worst_failures`: build one sample per item, stable-sort by
severity descending (CPython's sort is stable; `insertionSort` with a total
preorder is the stable sort), and keep the first `limit` entries. -/
def worst_failures (results : List ItemResult) (limit : ℕ := 10) : List FailureSample :=
  let ranked := results.map failureSample
  (List.insertionSort severityGE ranked).take limit

/-- C8 (amended): `worst_failures` assigns each item the claimed severity
(4.0 for a truthy error, plus 3.0 for a truthy schema_error, plus
2×(1−exact_match) + 2×(1−keyword_coverage) + 3×(1−schema_valid)), returns the
samples sorted in descending severity, truncated to at most `limit` entries,
with ties keeping the input order (stability); and an item with an error —
whose scores lie in [0,1], so its severity is at least 4.0 — ranks above any
error-free, schema-error-free item of severity below 4.0: whenever the
latter's sample is retained the former's is too, and the latter never
precedes the former. -/
theorem worst_failures_spec (results : List ItemResult) (limit : ℕ) :
    (∀ row : ItemResult, (failureSample row).severity =
        (if pyTruthy row.error then 4 else 0) + (if pyTruthy row.schema_error then 3 else 0)
          + 2 * (1 - row.scores.exact_match) + 2 * (1 - row.scores.keyword_coverage)
          + 3 * (1 - row.scores.schema_valid))
    ∧ (worst_failures results limit).Pairwise (fun a b => b.severity ≤ a.severity)
    ∧ (worst_failures results limit).length ≤ limit
    ∧ (∀ a b : FailureSample, [a, b].Sublist (results.map failureSample) →
        b.severity ≤ a.severity →
        [a, b].Sublist (List.insertionSort severityGE (results.map failureSample)))
    ∧ (∀ rA rB : ItemResult, rA ∈ results → pyTruthy rA.error = true →
        rA.scores.exact_match ≤ 1 → rA.scores.keyword_coverage ≤ 1 →
        rA.scores.schema_valid ≤ 1 → (failureSample rB).severity < 4 →
        (failureSample rB ∈ worst_failures results limit →
          failureSample rA ∈ worst_failures results limit)
        ∧ ¬ [failureSample rB, failureSample rA].Sublist (worst_failures results limit)) := by
  have hpair : (List.insertionSort severityGE (results.map failureSample)).Pairwise severityGE :=
    List.sorted_insertionSort severityGE (results.map failureSample)
  refine ⟨?_, ?_, ?_, ?_, ?_⟩
  · intro row
    simp only [failureSample]
    ring
  · exact List.Pairwise.sublist (List.take_sublist _ _) hpair
  · rw [worst_failures, List.length_take]
    exact min_le_left _ _
  · intro a b hsub hba
    exact List.sublist_insertionSort (by simp [List.pairwise_cons, severityGE, hba]) hsub
  · intro rA rB hmemA herrA hem hkc hsv hsevB
    have hsevA : (4 : ℚ) ≤ (failureSample rA).severity := by
      simp only [failureSample, herrA, if_true]
      have h1 : (0 : ℚ) ≤ (if pyTruthy rA.schema_error then 3 else 0) := by
        split <;> norm_num
      nlinarith [hem, hkc, hsv, h1]
    constructor
    · intro hmemB
      by_contra hnotA
      have hAfull : failureSample rA ∈ List.insertionSort severityGE (results.map failureSample) :=
        (List.mem_insertionSort severityGE).mpr (List.mem_map_of_mem failureSample hmemA)
      rw [← List.take_append_drop limit
        (List.insertionSort severityGE (results.map failureSample))] at hAfull hpair
      rcases List.mem_append.mp hAfull with hA1 | hA2
      · exact hnotA hA1
      · have hrel := (List.pairwise_append.mp hpair).2.2 _ hmemB _ hA2
        have : (failureSample rA).severity ≤ (failureSample rB).severity := hrel
        linarith
    · intro hsub
      have hp : ([failureSample rB, failureSample rA]).Pairwise
          (fun a b => b.severity ≤ a.severity) :=
        List.Pairwise.sublist hsub (List.Pairwise.sublist (List.take_sublist _ _) hpair)
      have := List.rel_of_pairwise_cons hp (List.mem_singleton_self _)
      linarith

/-- A concrete item whose backend call erred but whose scores are perfect:
severity 4.0 exactly. -/
def errorItemA : ItemResult :=
  { run_id := "r", item_id := "A", prompt := "p", output_text := "",
    error := some "boom",
    scores := { exact_match := 1, keyword_coverage := 1, schema_valid := 1 } }

/-- A concrete error-free, schema-error-free item with all-zero scores:
severity 2 + 2 + 3 = 7.0. -/
def zeroScoreItemB : ItemResult :=
  { run_id := "r", item_id := "B", prompt := "p", output_text := "",
    scores := { exact_match := 0, keyword_coverage := 0, schema_valid := 0 } }

/-- A concrete error-free item with perfect scores: severity 0. -/
def perfectItemC : ItemResult :=
  { run_id := "r", item_id := "C", prompt := "p", output_text := "ok",
    scores := { exact_match := 1, keyword_coverage := 1, schema_valid := 1 } }

/-- Concrete instantiation of C8 (amended): an item with an error and perfect
scores (severity 4) ranks above an error-free item of severity 0. -/
theorem worst_failures_spec_witness :
    ¬ [failureSample perfectItemC, failureSample errorItemA].Sublist
      (worst_failures [errorItemA, perfectItemC] 10) := by
  refine ((worst_failures_spec [errorItemA, perfectItemC] 10).2.2.2.2 errorItemA perfectItemC
    (by simp) rfl (by norm_num [errorItemA]) (by norm_num [errorItemA])
    (by norm_num [errorItemA]) ?_).2
  simp only [failureSample, pyTruthy, perfectItemC]
  norm_num

/-- C8, the claim as frozen, is false: the error-free, schema-error-free item
`B` with all-zero scores has severity 7.0 and outranks the erroring item `A`
whose scores are perfect (severity 4.0). -/
theorem worst_failures_error_rank_counterexample :
    (worst_failures [errorItemA, zeroScoreItemB] 10).map FailureSample.item_id = ["B", "A"]
    ∧ (failureSample errorItemA).severity = 4
    ∧ (failureSample zeroScoreItemB).severity = 7 := by
  refine ⟨?_, ?_, ?_⟩
  · norm_num [worst_failures, failureSample, pyTruthy, severityGE, errorItemA, zeroScoreItemB,
      List.insertionSort, List.orderedInsert, show ("boom" : String) ≠ "" by decide]
  · simp only [failureSample, pyTruthy, errorItemA]
    norm_num [show ("boom" : String) ≠ "" by decide]
  · simp only [failureSample, pyTruthy, zeroScoreItemB]
    norm_num

/-- Model of Python `str.lower` (ASCII-faithful). -/
def pyLower (s : String) : String := String.mk (s.data.map Char.toLower)

/-- Model of Python `str.strip` with no argument: remove leading and trailing
whitespace. -/
def pyStrip (s : String) : String :=
  String.mk (((s.data.dropWhile Char.isWhitespace).reverse.dropWhile
    Char.isWhitespace).reverse)

/-- Model of the Python substring test `needle in haystack`. -/
def pyContains (needle haystack : String) : Bool :=
  decide (needle.data <:+: haystack.data)

/-- scoring/metrics.py `exact_match_score`. -/
def exact_match_score (expected : Option String) (output : String) : ℚ :=
  match expected with
  | none => 0
  | some e => if pyLower (pyStrip e) = pyLower (pyStrip output) then 1 else 0

/-- scoring/metrics.py `keyword_coverage_score`: the count of keywords found
(case-insensitively) in the output over the keyword count. -/
def keyword_coverage_score (keywords : List String) (output : String) : ℚ :=
  if keywords = [] then 1
  else
    let output_lower := pyLower output
    ((keywords.filter fun keyword => pyContains (pyLower keyword) output_lower).length : ℚ)
      / (keywords.length : ℚ)

/-- A JSON value, the model of what `json.loads` returns (numbers as exact
rationals). -/
inductive JVal where
  | null
  | bool (b : Bool)
  | num (q : ℚ)
  | str (s : String)
  | arr (items : List JVal)
  | obj (fields : List (String × JVal))

/-- JSON insignificant whitespace. -/
def isJsonWs (c : Char) : Bool :=
  c = ' ' || c = '\t' || c = '\n' || c = '\r'

def skipWs (s : List Char) : List Char := s.dropWhile isJsonWs

/-- Value of one hexadecimal digit. -/
def hexVal (c : Char) : Option ℕ :=
  if c.isDigit then some (c.toNat - 48)
  else if 'a' ≤ c ∧ c ≤ 'f' then some (c.toNat - 87)
  else if 'A' ≤ c ∧ c ≤ 'F' then some (c.toNat - 55)
  else none

/-- JSON single-character escapes. -/
def escapeChar (e : Char) : Option Char :=
  if e = '"' then some '"'
  else if e = '\\' then some '\\'
  else if e = '/' then some '/'
  else if e = 'b' then some (Char.ofNat 8)
  else if e = 'f' then some (Char.ofNat 12)
  else if e = 'n' then some '\n'
  else if e = 'r' then some '\r'
  else if e = 't' then some '\t'
  else none

/-- Body of a JSON string after the opening quote: the decoded characters and
the input after the closing quote.  Fuel-indexed; `json_loads` supplies enough
fuel for any input. -/
def parseStringBody : ℕ → List Char → Except Unit (List Char × List Char)
  | 0, _ => Except.error ()
  | _ + 1, [] => Except.error ()
  | fuel + 1, c :: rest =>
    if c = '"' then Except.ok ([], rest)
    else if c = '\\' then
      match rest with
      | [] => Except.error ()
      | e :: rest2 =>
        if e = 'u' then
          match rest2 with
          | h1 :: h2 :: h3 :: h4 :: rest3 =>
            match hexVal h1, hexVal h2, hexVal h3, hexVal h4 with
            | some a, some b, some c2, some d => do
              let (content, rst) ← parseStringBody fuel rest3
              Except.ok (Char.ofNat (((a * 16 + b) * 16 + c2) * 16 + d) :: content, rst)
            | _, _, _, _ => Except.error ()
          | _ => Except.error ()
        else
          match escapeChar e with
          | some ec => do
            let (content, rst) ← parseStringBody fuel rest2
            Except.ok (ec :: content, rst)
          | none => Except.error ()
    else do
      let (content, rst) ← parseStringBody fuel rest
      Except.ok (c :: content, rst)

def digitsToNat (ds : List Char) : ℕ :=
  ds.foldl (fun acc c => acc * 10 + (c.toNat - 48)) 0

/-- A JSON number: optional minus, integer digits, optional fraction, optional
exponent, as an exact rational. -/
def parseNumber (s : List Char) : Except Unit (ℚ × List Char) :=
  let (neg, s1) := match s with
    | '-' :: rest => (true, rest)
    | _ => (false, s)
  let intDigits := s1.takeWhile Char.isDigit
  let s2 := s1.dropWhile Char.isDigit
  if intDigits = [] then Except.error ()
  else
    let afterFrac : Except Unit (ℚ × List Char) :=
      match s2 with
      | '.' :: r =>
        let fracDigits := r.takeWhile Char.isDigit
        if fracDigits = [] then Except.error ()
        else Except.ok ((digitsToNat intDigits : ℚ)
          + (digitsToNat fracDigits : ℚ) / ((10 : ℚ) ^ fracDigits.length),
          r.dropWhile Char.isDigit)
      | _ => Except.ok ((digitsToNat intDigits : ℚ), s2)
    match afterFrac with
    | Except.error e => Except.error e
    | Except.ok (mantissa, s3) =>
      let withExp : Except Unit (ℚ × List Char) :=
        match s3 with
        | c :: r =>
          if c = 'e' ∨ c = 'E' then
            let (eneg, r1) := match r with
              | '-' :: rr => (true, rr)
              | '+' :: rr => (false, rr)
              | _ => (false, r)
            let expDigits := r1.takeWhile Char.isDigit
            if expDigits = [] then Except.error ()
            else
              let e : ℤ := if eneg then -(digitsToNat expDigits : ℤ)
                else (digitsToNat expDigits : ℤ)
              Except.ok (mantissa * (10 : ℚ) ^ e, r1.dropWhile Char.isDigit)
          else Except.ok (mantissa, s3)
        | [] => Except.ok (mantissa, s3)
      match withExp with
      | Except.error e => Except.error e
      | Except.ok (value, s4) => Except.ok (if neg then -value else value, s4)

mutual

/-- Recursive-descent JSON value, the model of `json.loads` (fuel-indexed;
`json_loads` supplies fuel exceeding any possible nesting depth). -/
def parseVal : ℕ → List Char → Except Unit (JVal × List Char)
  | 0, _ => Except.error ()
  | fuel + 1, s =>
    match skipWs s with
    | [] => Except.error ()
    | c :: rest =>
      if c = 'n' then
        match rest with
        | 'u' :: 'l' :: 'l' :: r => Except.ok (JVal.null, r)
        | _ => Except.error ()
      else if c = 't' then
        match rest with
        | 'r' :: 'u' :: 'e' :: r => Except.ok (JVal.bool true, r)
        | _ => Except.error ()
      else if c = 'f' then
        match rest with
        | 'a' :: 'l' :: 's' :: 'e' :: r => Except.ok (JVal.bool false, r)
        | _ => Except.error ()
      else if c = '"' then do
        let (cs, r) ← parseStringBody (rest.length + 1) rest
        Except.ok (JVal.str (String.mk cs), r)
      else if c = '[' then
        match skipWs rest with
        | ']' :: r => Except.ok (JVal.arr [], r)
        | _ => do
          let (items, r) ← parseArrItems fuel rest
          Except.ok (JVal.arr items, r)
      else if c = '{' then
        match skipWs rest with
        | '}' :: r => Except.ok (JVal.obj [], r)
        | _ => do
          let (fields, r) ← parseObjItems fuel rest
          Except.ok (JVal.obj fields, r)
      else if c = '-' ∨ c.isDigit then
        match parseNumber (c :: rest) with
        | Except.ok (q, r) => Except.ok (JVal.num q, r)
        | Except.error e => Except.error e
      else Except.error ()

/-- One or more comma-separated array items followed by `]`. -/
def parseArrItems : ℕ → List Char → Except Unit (List JVal × List Char)
  | 0, _ => Except.error ()
  | fuel + 1, s => do
    let (v, r1) ← parseVal fuel s
    match skipWs r1 with
    | ',' :: r2 => do
      let (vs, r3) ← parseArrItems fuel r2
      Except.ok (v :: vs, r3)
    | ']' :: r2 => Except.ok ([v], r2)
    | _ => Except.error ()

/-- One or more comma-separated `"key": value` members followed by `}`. -/
def parseObjItems : ℕ → List Char → Except Unit (List (String × JVal) × List Char)
  | 0, _ => Except.error ()
  | fuel + 1, s =>
    match skipWs s with
    | '"' :: r => do
      let (key, r1) ← parseStringBody (r.length + 1) r
      match skipWs r1 with
      | ':' :: r2 => do
        let (v, r3) ← parseVal fuel r2
        match skipWs r3 with
        | ',' :: r4 => do
          let (fields, r5) ← parseObjItems fuel r4
          Except.ok ((String.mk key, v) :: fields, r5)
        | '}' :: r4 => Except.ok ([(String.mk key, v)], r4)
        | _ => Except.error ()
      | _ => Except.error ()
    | _ => Except.error ()

end

/-- Model of `json.loads` on a document string: parse one value and require
only whitespace after it.  Every parse failure is a `JSONDecodeError`, so the
parsing functions carry a `Unit` failure channel tagged here. -/
def json_loads (s : String) : Except PyErr JVal :=
  match parseVal (s.length + 1) s.data with
  | Except.ok (v, rest) =>
    if skipWs rest = [] then Except.ok v else Except.error PyErr.jsonDecodeError
  | Except.error _ => Except.error PyErr.jsonDecodeError

/-- The JSON Schema primitive type names. -/
def schemaTypeNames : List String :=
  ["array", "boolean", "integer", "null", "number", "object", "string"]

/-- Whether a JSON value matches one primitive type name. -/
def typeMatches (t : String) (v : JVal) : Bool :=
  if t = "null" then match v with | JVal.null => true | _ => false
  else if t = "boolean" then match v with | JVal.bool _ => true | _ => false
  else if t = "integer" then match v with | JVal.num q => q.den = 1 | _ => false
  else if t = "number" then match v with | JVal.num _ => true | _ => false
  else if t = "string" then match v with | JVal.str _ => true | _ => false
  else if t = "array" then match v with | JVal.arr _ => true | _ => false
  else if t = "object" then match v with | JVal.obj _ => true | _ => false
  else false

/-- The `"type"` keyword value check inside the jsonschema schema checker:
it must be a primitive type name or an array of such names. -/
def typeKeywordCheck (tv : JVal) : Except PyErr Unit :=
  match tv with
  | JVal.str t =>
    if t ∈ schemaTypeNames then Except.ok () else Except.error PyErr.schemaError
  | JVal.arr ts =>
    if ts.all fun tv2 =>
        match tv2 with
        | JVal.str t => decide (t ∈ schemaTypeNames)
        | _ => false
    then Except.ok () else Except.error PyErr.schemaError
  | _ => Except.error PyErr.schemaError

/-- Modelled from the jsonschema library (a dependency, not part of this
repository): `validate(instance, schema)` first checks the schema document
itself and raises `SchemaError` for a malformed one.  Modelled fragment:
boolean schemas and object schemas with an optional `"type"` keyword; any
other schema document is malformed. -/
def check_schema (schema : JVal) : Except PyErr Unit :=
  match schema with
  | JVal.bool _ => Except.ok ()
  | JVal.obj fields =>
    match fields.lookup "type" with
    | none => Except.ok ()
    | some tv => typeKeywordCheck tv
  | _ => Except.error PyErr.schemaError

/-- The `"type"` keyword validation against an instance. -/
def typeKeywordValidate (tv inst : JVal) : Except PyErr Unit :=
  match tv with
  | JVal.str t =>
    if typeMatches t inst then Except.ok () else Except.error PyErr.validationError
  | JVal.arr ts =>
    if ts.any fun tv2 =>
        match tv2 with
        | JVal.str t => typeMatches t inst
        | _ => false
    then Except.ok () else Except.error PyErr.validationError
  | _ => Except.error PyErr.validationError

/-- Modelled from the jsonschema library: instance validation against a schema
already known to be well-formed; a violation raises `ValidationError`. -/
def validateInstance (schema inst : JVal) : Except PyErr Unit :=
  match schema with
  | JVal.bool true => Except.ok ()
  | JVal.bool false => Except.error PyErr.validationError
  | JVal.obj fields =>
    match fields.lookup "type" with
    | none => Except.ok ()
    | some tv => typeKeywordValidate tv inst
  | _ => Except.error PyErr.schemaError

/-- Modelled from the jsonschema library: `validate(instance=parsed,
schema=schema)` — schema well-formedness check first (`SchemaError`), then
instance validation (`ValidationError`). -/
def validateJ (inst schema : JVal) : Except PyErr Unit := do
  check_schema schema
  validateInstance schema inst

lemma check_schema_obj (fields : List (String × JVal)) :
    check_schema (JVal.obj fields) =
      (match fields.lookup "type" with
        | none => Except.ok ()
        | some tv => typeKeywordCheck tv) := rfl

lemma validateInstance_obj (fields : List (String × JVal)) (v : JVal) :
    validateInstance (JVal.obj fields) v =
      (match fields.lookup "type" with
        | none => Except.ok ()
        | some tv => typeKeywordValidate tv v) := rfl

/-- scoring/metrics.py `schema_validity_score`: `None` schema scores 1.0; the
`try` block parses then validates; `except (json.JSONDecodeError,
ValidationError)` maps exactly those two exceptions to 0.0 — anything else
(in particular `SchemaError` for a malformed schema document) escapes. -/
def schema_validity_score (schema : Option JVal) (output : String) : Except PyErr ℚ :=
  match schema with
  | none => Except.ok 1
  | some sch =>
    match json_loads output with
    | Except.error PyErr.jsonDecodeError => Except.ok 0
    | Except.error e => Except.error e
    | Except.ok parsed =>
      match validateJ parsed sch with
      | Except.ok _ => Except.ok 1
      | Except.error PyErr.jsonDecodeError => Except.ok 0
      | Except.error PyErr.validationError => Except.ok 0
      | Except.error e => Except.error e

/-- domain/models.py `DatasetItem` (the `metadata` field is never read by the scorer and is omitted). -/
structure DatasetItem where
  item_id : String
  prompt : String
  expected_answer : Option String := none
  keywords : List String := []
  tags : List (String × String) := []
  output_schema : Option JVal := none

/-- scoring/metrics.py `score_item`: only the schema score can raise. -/
def score_item (item : DatasetItem) (output_text : String)
    (llm_judge_score : Option ℚ := none) : Except PyErr ItemScore :=
  match schema_validity_score item.output_schema output_text with
  | Except.error e => Except.error e
  | Except.ok sv =>
    Except.ok { exact_match := exact_match_score item.expected_answer output_text
                keyword_coverage := keyword_coverage_score item.keywords output_text
                schema_valid := sv
                llm_judge_score := llm_judge_score }

/-- scoring/metrics.py `aggregate_scores`: raises `ValueError` on an empty
list; `statistics.mean` is sum over count; the judge mean is over the
non-`None` judge scores and present only when there is at least one. -/
def aggregate_scores (scores : List ItemScore) : Except PyErr AggregateMetrics :=
  if scores = [] then Except.error PyErr.valueError
  else
    let judge_values := scores.filterMap fun s => s.llm_judge_score
    Except.ok
      { exact_match := (scores.map fun s => s.exact_match).sum / (scores.length : ℚ)
        keyword_coverage := (scores.map fun s => s.keyword_coverage).sum / (scores.length : ℚ)
        schema_valid := (scores.map fun s => s.schema_valid).sum / (scores.length : ℚ)
        llm_judge_score := if judge_values = [] then none
          else some (judge_values.sum / (judge_values.length : ℚ))
        sample_count := scores.length }

/-- Reference scoring, following the specification's words (§4.3), for the
refinement claim C4: exact_match is 1.0 iff the case-insensitive,
whitespace-trimmed output equals the expected answer. -/
def refExactMatch (expected : Option String) (output : String) : ℚ :=
  match expected with
  | none => 0
  | some e => if pyLower (pyStrip output) = pyLower (pyStrip e) then 1 else 0

/-- Reference scoring (spec §4.3): the fraction of required keywords found as
case-insensitive substrings of the output; 1.0 for an empty keyword list. -/
def refKeywordCoverage (keywords : List String) (output : String) : ℚ :=
  if keywords.length = 0 then 1
  else ((keywords.filter fun k => pyContains (pyLower k) (pyLower output)).length : ℚ)
    / (keywords.length : ℚ)

/-- Reference scoring (spec §4.3): 1.0 iff the output parses as JSON and
validates against the schema, 0.0 on parse failure or schema violation, 1.0
with no schema declared. -/
def refSchemaValid (schema : Option JVal) (output : String) : ℚ :=
  match schema with
  | none => 1
  | some sch =>
    match json_loads output with
    | Except.ok v =>
      match validateJ v sch with
      | Except.ok _ => 1
      | Except.error _ => 0
    | Except.error _ => 0

/-- The model of `json.loads` fails only with `JSONDecodeError`. -/
lemma json_loads_error (s : String) (e : PyErr) (h : json_loads s = Except.error e) :
    e = PyErr.jsonDecodeError := by
  unfold json_loads at h
  cases hp : parseVal (s.length + 1) s.data with
  | ok vr =>
    rcases vr with ⟨v, rest⟩
    rw [hp] at h
    by_cases hw : skipWs rest = []
    · simp only [hw, if_pos] at h
      exact Except.noConfusion h
    · simp only [hw, if_neg, ite_false] at h
      exact (Except.error.inj h).symm
  | error u =>
    rw [hp] at h
    exact (Except.error.inj h).symm

/-- A well-formed `"type"` keyword validates an instance with at worst a
`ValidationError`. -/
lemma typeKeywordValidate_cases (tv v : JVal) (hc : typeKeywordCheck tv = Except.ok ()) :
    typeKeywordValidate tv v = Except.ok ()
      ∨ typeKeywordValidate tv v = Except.error PyErr.validationError := by
  cases tv with
  | str t =>
    rw [show typeKeywordValidate (JVal.str t) v =
      (if typeMatches t v then Except.ok () else Except.error PyErr.validationError) from rfl]
    split
    · exact Or.inl rfl
    · exact Or.inr rfl
  | arr ts =>
    rw [show typeKeywordValidate (JVal.arr ts) v =
      (if ts.any fun tv2 =>
          match tv2 with
          | JVal.str t => typeMatches t v
          | _ => false
        then Except.ok () else Except.error PyErr.validationError) from rfl]
    split
    · exact Or.inl rfl
    · exact Or.inr rfl
  | null => exact Except.noConfusion hc
  | bool b => exact Except.noConfusion hc
  | num q => exact Except.noConfusion hc
  | obj f => exact Except.noConfusion hc

/-- A well-formed schema validates an instance with at worst a
`ValidationError`. -/
lemma validateInstance_of_check (sch v : JVal) (hc : check_schema sch = Except.ok ()) :
    validateInstance sch v = Except.ok ()
      ∨ validateInstance sch v = Except.error PyErr.validationError := by
  cases sch with
  | bool b =>
    cases b
    · exact Or.inr rfl
    · exact Or.inl rfl
  | obj fields =>
    rw [check_schema_obj] at hc
    cases hl : fields.lookup "type" with
    | none =>
      rw [validateInstance_obj, hl]
      exact Or.inl rfl
    | some tv =>
      rw [hl] at hc
      rw [validateInstance_obj, hl]
      exact typeKeywordValidate_cases tv v hc
  | null => exact Except.noConfusion hc
  | num q => exact Except.noConfusion hc
  | str t => exact Except.noConfusion hc
  | arr l => exact Except.noConfusion hc

/-- Whenever the schema is absent, well-formed, or the output is not JSON,
`schema_validity_score` returns exactly the reference score. -/
lemma schema_validity_score_eq_ref (schema : Option JVal) (output : String)
    (h : ∀ sch, schema = some sch → check_schema sch = Except.ok ()
      ∨ json_loads output = Except.error PyErr.jsonDecodeError) :
    schema_validity_score schema output = Except.ok (refSchemaValid schema output) := by
  cases schema with
  | none => rfl
  | some sch =>
    rcases h sch rfl with hc | hjson
    · unfold schema_validity_score refSchemaValid
      cases hj : json_loads output with
      | error e =>
        have he : e = PyErr.jsonDecodeError := json_loads_error output e hj
        subst he
        rfl
      | ok v =>
        have hJ : validateJ v sch = validateInstance sch v := by
          unfold validateJ
          rw [hc]
          rfl
        rcases validateInstance_of_check sch v hc with hv | hv <;>
          simp only [hJ, hv]
    · unfold schema_validity_score refSchemaValid
      rw [hjson]

/-- C4: `score_item` equals the reference scoring definition (whenever the
schema stage returns at all, i.e. the schema is absent or well-formed or the
output is not JSON — totality itself is claim C6): exact_match is 1.0 iff the
case-insensitive whitespace-trimmed output equals the expected answer (0.0
with no expected answer); keyword_coverage is the fraction of keywords found
as case-insensitive substrings (1.0 for an empty list); schema_valid is 1.0
iff the output parses and validates (1.0 with no schema, 0.0 on parse failure
or violation); the judge score is passed through. -/
theorem score_item_matches_reference (item : DatasetItem) (output_text : String)
    (judge : Option ℚ) :
    ((∀ sch, item.output_schema = some sch → check_schema sch = Except.ok ()
        ∨ json_loads output_text = Except.error PyErr.jsonDecodeError) →
      score_item item output_text judge = Except.ok
        { exact_match := refExactMatch item.expected_answer output_text
          keyword_coverage := refKeywordCoverage item.keywords output_text
          schema_valid := refSchemaValid item.output_schema output_text
          llm_judge_score := judge })
    ∧ (refExactMatch item.expected_answer output_text = 1 ↔
        ∃ e, item.expected_answer = some e ∧
          pyLower (pyStrip output_text) = pyLower (pyStrip e))
    ∧ (item.expected_answer = none → refExactMatch item.expected_answer output_text = 0)
    ∧ (item.keywords = [] → refKeywordCoverage item.keywords output_text = 1)
    ∧ (item.keywords ≠ [] →
        refKeywordCoverage item.keywords output_text * (item.keywords.length : ℚ)
          = ((item.keywords.filter fun k =>
              pyContains (pyLower k) (pyLower output_text)).length : ℚ))
    ∧ (refSchemaValid item.output_schema output_text = 1 ↔
        (item.output_schema = none ∨ ∃ sch v, item.output_schema = some sch ∧
          json_loads output_text = Except.ok v ∧ validateJ v sch = Except.ok ()))
    ∧ (∀ sch, item.output_schema = some sch →
        (json_loads output_text = Except.error PyErr.jsonDecodeError →
          refSchemaValid item.output_schema output_text = 0)
        ∧ (∀ v e, json_loads output_text = Except.ok v →
            validateJ v sch = Except.error e →
              refSchemaValid item.output_schema output_text = 0)) := by
  have hrefnone : ∀ out, refSchemaValid none out = 1 := fun _ => rfl
  have hrefok : ∀ sch out v, json_loads out = Except.ok v →
      refSchemaValid (some sch) out =
        (match validateJ v sch with
          | Except.ok _ => 1
          | Except.error _ => 0) := by
    intro sch out v hj
    show (match json_loads out with
      | Except.ok v =>
        (match validateJ v sch with
          | Except.ok _ => (1 : ℚ)
          | Except.error _ => 0)
      | Except.error _ => 0) = _
    rw [hj]
  have hreferr : ∀ sch out e, json_loads out = Except.error e →
      refSchemaValid (some sch) out = 0 := by
    intro sch out e hj
    show (match json_loads out with
      | Except.ok v =>
        (match validateJ v sch with
          | Except.ok _ => (1 : ℚ)
          | Except.error _ => 0)
      | Except.error _ => 0) = _
    rw [hj]
  refine ⟨fun hwf => ?_, ?_, fun hnone => ?_, fun hkw => ?_, fun hkw => ?_, ?_,
    fun sch hsch => ?_⟩
  · unfold score_item
    rw [schema_validity_score_eq_ref item.output_schema output_text hwf]
    have hem : exact_match_score item.expected_answer output_text
        = refExactMatch item.expected_answer output_text := by
      unfold exact_match_score refExactMatch
      cases item.expected_answer with
      | none => rfl
      | some e =>
        show (if pyLower (pyStrip e) = pyLower (pyStrip output_text) then (1:ℚ) else 0)
          = (if pyLower (pyStrip output_text) = pyLower (pyStrip e) then (1:ℚ) else 0)
        by_cases h : pyLower (pyStrip e) = pyLower (pyStrip output_text)
        · rw [if_pos h, if_pos h.symm]
        · rw [if_neg h, if_neg (fun hx => h hx.symm)]
    have hkc : keyword_coverage_score item.keywords output_text
        = refKeywordCoverage item.keywords output_text := by
      unfold keyword_coverage_score refKeywordCoverage
      by_cases h : item.keywords = []
      · rw [if_pos h, if_pos (by rw [h]; rfl)]
      · rw [if_neg h, if_neg (fun hx => h (List.length_eq_zero.mp hx))]
    rw [hem, hkc]
  · cases hexp : item.expected_answer with
    | none =>
      rw [show refExactMatch none output_text = 0 from rfl]
      constructor
      · intro h
        exact absurd h (by norm_num)
      · rintro ⟨e, he, _⟩
        exact Option.noConfusion he
    | some e =>
      rw [show refExactMatch (some e) output_text
        = (if pyLower (pyStrip output_text) = pyLower (pyStrip e) then (1:ℚ) else 0) from rfl]
      constructor
      · intro h
        refine ⟨e, rfl, ?_⟩
        by_contra hne
        rw [if_neg hne] at h
        exact absurd h (by norm_num)
      · rintro ⟨e2, he2, hlow⟩
        rcases Option.some.inj he2 with rfl
        rw [if_pos hlow]
  · rw [hnone]
    rfl
  · unfold refKeywordCoverage
    rw [if_pos (by rw [hkw]; rfl)]
  · unfold refKeywordCoverage
    rw [if_neg (fun hx => hkw (List.length_eq_zero.mp hx))]
    have hn : ((item.keywords.length : ℚ)) ≠ 0 := by
      exact_mod_cast fun hx => hkw (List.length_eq_zero.mp (by exact_mod_cast hx))
    field_simp
  · cases hsch : item.output_schema with
    | none =>
      rw [hrefnone]
      simp
    | some sch =>
      cases hj : json_loads output_text with
      | error e =>
        rw [hreferr sch output_text e hj]
        refine iff_of_false (by norm_num) ?_
        rintro (h | ⟨sch2, v2, hs2, hj2, _⟩)
        · exact Option.noConfusion h
        · exact Except.noConfusion hj2
      | ok v =>
        rw [hrefok sch output_text v hj]
        cases hv : validateJ v sch with
        | ok u =>
          refine iff_of_true rfl (Or.inr ⟨sch, v, rfl, rfl, ?_⟩)
          cases u
          exact hv
        | error e =>
          refine iff_of_false (fun h => ?_) ?_
          · have h0 : (0 : ℚ) = 1 := h
            exact absurd h0 (by norm_num)
          rintro (h | ⟨sch2, v2, hs2, hj2, hv2⟩)
          · exact Option.noConfusion h
          · rcases Option.some.inj hs2 with rfl
            rcases Except.ok.inj hj2 with rfl
            exact Except.noConfusion (hv.symm.trans hv2)
  · rw [hsch]
    constructor
    · intro hj
      exact hreferr sch output_text PyErr.jsonDecodeError hj
    · intro v e hj hv
      rw [hrefok sch output_text v hj, hv]

/-- Concrete instantiation of C4: expected answer "ok", no keywords, schema
`\x7b"type": "object"\x7d`, output `"\x7b\x7d"`: exact_match 0,
keyword_coverage 1, schema_valid 1. -/
theorem score_item_matches_reference_witness :
    score_item
        { item_id := "1", prompt := "p", expected_answer := some "ok",
          output_schema := some (JVal.obj [("type", JVal.str "object")]) }
        "\x7b\x7d" none
      = Except.ok { exact_match := 0, keyword_coverage := 1, schema_valid := 1,
                    llm_judge_score := none } := by
  have h := (score_item_matches_reference
    { item_id := "1", prompt := "p", expected_answer := some "ok",
      output_schema := some (JVal.obj [("type", JVal.str "object")]) }
    "\x7b\x7d" none).1
    (fun sch hs => Or.inl (by rcases Option.some.inj hs with rfl; rfl))
  rw [h]
  rfl

/-- Field-level description of a successful `aggregate_scores` result. -/
lemma aggregate_scores_fields (scores : List ItemScore) (h : scores ≠ [])
    (m : AggregateMetrics) (hm : aggregate_scores scores = Except.ok m) :
    m.exact_match = (scores.map fun s => s.exact_match).sum / (scores.length : ℚ)
    ∧ m.keyword_coverage = (scores.map fun s => s.keyword_coverage).sum / (scores.length : ℚ)
    ∧ m.schema_valid = (scores.map fun s => s.schema_valid).sum / (scores.length : ℚ)
    ∧ m.sample_count = scores.length
    ∧ m.llm_judge_score = (if (scores.filterMap fun s => s.llm_judge_score) = [] then none
        else some ((scores.filterMap fun s => s.llm_judge_score).sum
          / (((scores.filterMap fun s => s.llm_judge_score).length : ℚ)))) := by
  rw [aggregate_scores, if_neg h] at hm
  rcases Except.ok.inj hm with rfl
  exact ⟨rfl, rfl, rfl, rfl, rfl⟩

/-- C5: for a non-empty score list, `aggregate_scores` returns the arithmetic
mean of each score field (stated multiplicatively: mean × count = sum) with
`sample_count` the number of items; the aggregate judge score is present iff
at least one item has a non-absent judge score, and then it is the mean of
the non-absent judge scores; the empty list raises `ValueError`. -/
theorem aggregate_scores_spec (scores : List ItemScore) :
    (scores = [] → aggregate_scores scores = Except.error PyErr.valueError)
    ∧ (scores ≠ [] → ∃ m, aggregate_scores scores = Except.ok m ∧
        m.exact_match * (scores.length : ℚ) = (scores.map fun s => s.exact_match).sum ∧
        m.keyword_coverage * (scores.length : ℚ)
          = (scores.map fun s => s.keyword_coverage).sum ∧
        m.schema_valid * (scores.length : ℚ) = (scores.map fun s => s.schema_valid).sum ∧
        m.sample_count = scores.length ∧
        (m.llm_judge_score.isSome = true ↔ ∃ s ∈ scores, s.llm_judge_score.isSome = true) ∧
        (∀ jv, m.llm_judge_score = some jv →
          jv * (((scores.filterMap fun s => s.llm_judge_score).length : ℚ))
            = (scores.filterMap fun s => s.llm_judge_score).sum)) := by
  constructor
  · intro h
    rw [aggregate_scores, if_pos h]
  · intro h
    have hn : ((scores.length : ℚ)) ≠ 0 := by
      have := List.length_pos.mpr h
      exact_mod_cast Nat.pos_iff_ne_zero.mp this
    obtain ⟨m, hm⟩ : ∃ m, aggregate_scores scores = Except.ok m :=
      ⟨_, by rw [aggregate_scores, if_neg h]⟩
    obtain ⟨hem, hkc, hsv, hsc, hjs⟩ := aggregate_scores_fields scores h m hm
    refine ⟨m, hm, ?_, ?_, ?_, hsc, ?_, ?_⟩
    · rw [hem]
      exact div_mul_cancel₀ _ hn
    · rw [hkc]
      exact div_mul_cancel₀ _ hn
    · rw [hsv]
      exact div_mul_cancel₀ _ hn
    · rw [hjs]
      by_cases hjv : (scores.filterMap fun s => s.llm_judge_score) = []
      · rw [if_pos hjv]
        simp only [Option.isSome_none, Bool.false_eq_true, false_iff]
        rintro ⟨sc, hsc2, hsome⟩
        rcases Option.isSome_iff_exists.mp hsome with ⟨jv, hjv2⟩
        have hmem : jv ∈ scores.filterMap fun s => s.llm_judge_score :=
          List.mem_filterMap.mpr ⟨sc, hsc2, hjv2⟩
        rw [hjv] at hmem
        exact List.not_mem_nil jv hmem
      · rw [if_neg hjv]
        simp only [Option.isSome_some, true_iff]
        rcases List.exists_mem_of_ne_nil _ hjv with ⟨jv, hjvmem⟩
        rcases List.mem_filterMap.mp hjvmem with ⟨sc, hsc2, hsome⟩
        exact ⟨sc, hsc2, by rw [hsome]; rfl⟩
    · intro jv hjv
      rw [hjs] at hjv
      by_cases hempty : (scores.filterMap fun s => s.llm_judge_score) = []
      · rw [if_pos hempty] at hjv
        exact Option.noConfusion hjv
      · rw [if_neg hempty] at hjv
        have hlen : (((scores.filterMap fun s => s.llm_judge_score).length : ℚ)) ≠ 0 := by
          have := List.length_pos.mpr hempty
          exact_mod_cast Nat.pos_iff_ne_zero.mp this
        rcases Option.some.inj hjv with rfl
        exact div_mul_cancel₀ _ hlen

/-- Concrete instantiation of C5, the spec's example: items (1,1,1) and
(0,0.5,1) aggregate to exact_match 0.5, keyword_coverage 0.75,
schema_valid 1, sample_count 2. -/
theorem aggregate_scores_spec_witness :
    aggregate_scores [⟨1, 1, 1, none⟩, ⟨0, 1/2, 1, none⟩]
      = Except.ok { exact_match := 1/2, keyword_coverage := 3/4, schema_valid := 1,
                    llm_judge_score := none, sample_count := 2 } := by
  rw [aggregate_scores, if_neg (List.cons_ne_nil _ _)]
  norm_num [List.filterMap]

/-- Unfolding of `schema_validity_score` for a present schema. -/
lemma schema_validity_some (sch : JVal) (output : String) :
    schema_validity_score (some sch) output =
      (match json_loads output with
        | Except.error PyErr.jsonDecodeError => Except.ok 0
        | Except.error e => Except.error e
        | Except.ok parsed =>
          match validateJ parsed sch with
          | Except.ok _ => Except.ok 1
          | Except.error PyErr.jsonDecodeError => Except.ok 0
          | Except.error PyErr.validationError => Except.ok 0
          | Except.error e => Except.error e) := rfl

/-- C6, the claim as frozen, is false: for the malformed schema document
`\x7b"type": 5\x7d` and the output `"\x7b\x7d"` — valid JSON — the
library's `SchemaError` is not among the caught exception classes, so it
escapes `schema_validity_score` and hence `score_item`. -/
theorem schema_validity_total_counterexample :
    schema_validity_score (some (JVal.obj [("type", JVal.num 5)])) "\x7b\x7d"
      = Except.error PyErr.schemaError
    ∧ score_item
        { item_id := "1", prompt := "p",
          output_schema := some (JVal.obj [("type", JVal.num 5)]) }
        "\x7b\x7d" none
      = Except.error PyErr.schemaError := ⟨rfl, rfl⟩

/-- C6 (amended): the item scorer is total — invalid JSON and schema
violations are scoring outcomes (0.0), never escaping errors — whenever the
schema is absent or a well-formed schema document, and also whenever the
output is not valid JSON; but for a malformed schema document together with
an output that parses as JSON, the schema check's `SchemaError` escapes
`schema_validity_score`, and `score_item` returns a value exactly when
`schema_validity_score` does. -/
theorem schema_validity_score_totality (schema : Option JVal) (output : String) :
    (schema = none → schema_validity_score schema output = Except.ok 1)
    ∧ (∀ sch, schema = some sch → check_schema sch = Except.ok () →
        ∃ q, schema_validity_score schema output = Except.ok q)
    ∧ (∀ sch, schema = some sch → json_loads output = Except.error PyErr.jsonDecodeError →
        schema_validity_score schema output = Except.ok 0)
    ∧ (∀ sch v, schema = some sch → json_loads output = Except.ok v →
        check_schema sch = Except.error PyErr.schemaError →
        schema_validity_score schema output = Except.error PyErr.schemaError)
    ∧ (∀ item : DatasetItem, ∀ judge, item.output_schema = schema →
        ((∃ sc, score_item item output judge = Except.ok sc) ↔
          ∃ q, schema_validity_score schema output = Except.ok q)) := by
  refine ⟨fun h => ?_, fun sch hs hc => ?_, fun sch hs hj => ?_, fun sch v hs hj hc => ?_,
    fun item judge hsch => ?_⟩
  · rw [h]
    rfl
  · subst hs
    rw [schema_validity_score_eq_ref (some sch) output
      (fun sch2 h2 => by rcases Option.some.inj h2 with rfl; exact Or.inl hc)]
    exact ⟨_, rfl⟩
  · subst hs
    rw [schema_validity_some, hj]
  · subst hs
    have hJ : validateJ v sch = Except.error PyErr.schemaError := by
      unfold validateJ
      rw [hc]
      rfl
    rw [schema_validity_some, hj]
    show (match validateJ v sch with
      | Except.ok _ => Except.ok (1 : ℚ)
      | Except.error PyErr.jsonDecodeError => Except.ok 0
      | Except.error PyErr.validationError => Except.ok 0
      | Except.error e => Except.error e) = _
    rw [hJ]
  · unfold score_item
    rw [hsch]
    cases hs : schema_validity_score schema output with
    | ok q => exact iff_of_true ⟨_, rfl⟩ ⟨q, rfl⟩
    | error e =>
      refine iff_of_false ?_ ?_
      · rintro ⟨sc, hsc⟩
        exact Except.noConfusion hsc
      · rintro ⟨q, hq⟩
        exact Except.noConfusion hq

/-- Concrete instantiation of C6 (amended): a well-formed schema with a
non-JSON output scores without raising. -/
theorem schema_validity_score_totality_witness :
    ∃ q, schema_validity_score (some (JVal.obj [("type", JVal.str "object")])) "not json"
      = Except.ok q :=
  (schema_validity_score_totality (some (JVal.obj [("type", JVal.str "object")]))
    "not json").2.1 _ rfl rfl

/-- The key order used by `json.dumps(..., sort_keys=True)`. -/
def keyLE (a b : String × JVal) : Prop := a.1 ≤ b.1

instance : DecidableRel keyLE := fun a b => inferInstanceAs (Decidable (a.1 ≤ b.1))

/-- Key-sorting of a payload dict, the model of `sort_keys=True`. -/
def sortByKey (l : List (String × JVal)) : List (String × JVal) :=
  List.insertionSort keyLE l

/-- config.py `stable_hash`: `json.dumps(payload, sort_keys=True,
separators=(",", ":"))` followed by a SHA-256 hex digest.  The canonical
serialization of the key-sorted payload composed with the digest is modelled
as one function `hashFn` of the key-sorted payload object; theorems assume it
injective, i.e. the digest is collision-free over the payloads at hand. -/
def stable_hash (hashFn : JVal → String) (payload : List (String × JVal)) : String :=
  hashFn (JVal.obj (sortByKey payload))

/-- config.py `build_run_key`: the first 16 hex characters of the stable hash
of the identity dict. -/
def build_run_key (hashFn : JVal → String)
    (dataset_name dataset_version prompt_version model_name : String)
    (retrieval_enabled llm_judge_enabled : Bool) (seed : ℤ) : String :=
  (stable_hash hashFn
    [("dataset_name", JVal.str dataset_name),
     ("dataset_version", JVal.str dataset_version),
     ("prompt_version", JVal.str prompt_version),
     ("model_name", JVal.str model_name),
     ("retrieval_enabled", JVal.bool retrieval_enabled),
     ("llm_judge_enabled", JVal.bool llm_judge_enabled),
     ("seed", JVal.num (seed : ℚ))]).take 16

/-- Round half to even, the rounding of Python float formatting. -/
def roundHalfEven (q : ℚ) : ℤ :=
  let f := ⌊q⌋
  let r := q - f
  if r < 1/2 then f
  else if r > 1/2 then f + 1
  else if f % 2 = 0 then f else f + 1

/-- Model of Python `f"\x7btemperature:.6f\x7d"`: the value rounded to six
decimal places and rendered with exactly six fraction digits. -/
def fmt6 (q : ℚ) : String :=
  let scaled := roundHalfEven (q * 1000000)
  let sign := if scaled < 0 then "-" else ""
  let a := scaled.natAbs
  sign ++ toString (a / 1000000) ++ "."
    ++ String.mk (List.replicate (6 - (toString (a % 1000000)).length) '0'
        ++ (toString (a % 1000000)).data)

/-- Model of `json.dumps` on an optional string: `null` for `None`. -/
def jOfOptStr (o : Option String) : JVal :=
  match o with
  | none => JVal.null
  | some s => JVal.str s

/-- The four fingerprints returned by config.py `build_fingerprints`. -/
structure Fingerprints where
  dataset_fingerprint : String
  prompt_fingerprint : String
  config_fingerprint : String
  experiment_signature : String
  deriving DecidableEq, Repr

/-- config.py `build_fingerprints`, dataset payload. -/
def datasetFingerprint (hashFn : JVal → String)
    (dataset_name dataset_version dataset_checksum : String) : String :=
  stable_hash hashFn
    [("dataset_name", JVal.str dataset_name),
     ("dataset_version", JVal.str dataset_version),
     ("dataset_checksum", JVal.str dataset_checksum)]

/-- config.py `build_fingerprints`, prompt payload. -/
def promptFingerprint (hashFn : JVal → String)
    (prompt_version prompt_template : String) : String :=
  stable_hash hashFn
    [("prompt_version", JVal.str prompt_version),
     ("prompt_template", JVal.str prompt_template)]

/-- config.py `build_fingerprints`, config payload: the temperature enters as
the string `f"\x7btemperature:.6f\x7d"`, and the dataset and prompt
fingerprints are embedded. -/
def configFingerprint (hashFn : JVal → String) (model_name : String)
    (retrieval_enabled llm_judge_enabled : Bool) (llm_judge_model : Option String)
    (temperature : ℚ) (seed : ℤ) (prompt_fp dataset_fp : String) : String :=
  stable_hash hashFn
    [("model_name", JVal.str model_name),
     ("retrieval_enabled", JVal.bool retrieval_enabled),
     ("llm_judge_enabled", JVal.bool llm_judge_enabled),
     ("llm_judge_model", jOfOptStr llm_judge_model),
     ("temperature", JVal.str (fmt6 temperature)),
     ("seed", JVal.num (seed : ℚ)),
     ("prompt_fingerprint", JVal.str prompt_fp),
     ("dataset_fingerprint", JVal.str dataset_fp)]

/-- config.py `build_fingerprints`, experiment signature payload. -/
def experimentSignature (hashFn : JVal → String)
    (dataset_fp prompt_fp config_fp : String) : String :=
  stable_hash hashFn
    [("dataset_fingerprint", JVal.str dataset_fp),
     ("prompt_fingerprint", JVal.str prompt_fp),
     ("config_fingerprint", JVal.str config_fp),
     ("platform_version", JVal.str "1")]

/-- config.py `build_fingerprints`. -/
def build_fingerprints (hashFn : JVal → String)
    (dataset_name dataset_version dataset_checksum prompt_version prompt_template
      model_name : String)
    (retrieval_enabled llm_judge_enabled : Bool) (llm_judge_model : Option String)
    (temperature : ℚ) (seed : ℤ) : Fingerprints :=
  let dataset_fp := datasetFingerprint hashFn dataset_name dataset_version dataset_checksum
  let prompt_fp := promptFingerprint hashFn prompt_version prompt_template
  let config_fp := configFingerprint hashFn model_name retrieval_enabled llm_judge_enabled
    llm_judge_model temperature seed prompt_fp dataset_fp
  { dataset_fingerprint := dataset_fp
    prompt_fingerprint := prompt_fp
    config_fingerprint := config_fp
    experiment_signature := experimentSignature hashFn dataset_fp prompt_fp config_fp }

/-- Two payloads whose digests collide under an injective digest are key-wise
equal; contrapositively, if one key maps to different values the digests
differ. -/
lemma stable_hash_congr_ne (hashFn : JVal → String) (hInj : Function.Injective hashFn)
    {l1 l2 : List (String × JVal)} (k : String) (x1 x2 : JVal)
    (h1 : (k, x1) ∈ l1) (h2 : ∀ y, (k, y) ∈ l2 → y = x2) (hne : x1 ≠ x2) :
    stable_hash hashFn l1 ≠ stable_hash hashFn l2 := by
  intro he
  have hsort : sortByKey l1 = sortByKey l2 := JVal.obj.inj (hInj he)
  have hperm : l1.Perm l2 := by
    have h1p : l1.Perm (sortByKey l1) := (List.perm_insertionSort keyLE l1).symm
    have h2p : (sortByKey l2).Perm l2 := List.perm_insertionSort keyLE l2
    rw [hsort] at h1p
    exact h1p.trans h2p
  exact hne (h2 x1 (hperm.mem_iff.mp h1))

lemma jOfOptStr_inj {a b : Option String} (h : jOfOptStr a = jOfOptStr b) : a = b := by
  cases a with
  | none =>
    cases b with
    | none => rfl
    | some s => exact JVal.noConfusion h
  | some s =>
    cases b with
    | none => exact JVal.noConfusion h
    | some s2 => rw [JVal.str.inj h]

/-- A temperature in [0, 1/2000000) formats to "0.000000". -/
lemma fmt6_smallpos (q : ℚ) (h0 : 0 ≤ q * 1000000) (hlt : q * 1000000 < 1/2) :
    fmt6 q = "0.000000" := by
  have hf : ⌊q * 1000000⌋ = 0 := by
    rw [Int.floor_eq_iff]
    constructor
    · exact_mod_cast h0
    · push_cast
      linarith
  have hs : roundHalfEven (q * 1000000) = 0 := by
    simp only [roundHalfEven, hf]
    rw [if_pos (show q * 1000000 - ((0 : ℤ) : ℚ) < 1/2 by push_cast; linarith)]
  simp only [fmt6, hs]
  rfl

/-- C9, the claim as frozen, is false: the two input tuples below differ in a
single field (temperature 0.0000001 vs 0.0000002) yet produce identical
fingerprints for every digest function, because the temperature enters the
config payload only through its 6-decimal formatting `f"\x7btemperature:.6f\x7d"`,
which collapses both to "0.000000". -/
theorem build_fingerprints_temperature_counterexample :
    ((1 : ℚ)/10000000 ≠ 2/10000000)
    ∧ ((fun hashFn => build_fingerprints hashFn "ds" "v1" "ck" "pv" "pt" "m"
          false false none ((1 : ℚ)/10000000) 42)
        = (fun hashFn => build_fingerprints hashFn "ds" "v1" "ck" "pv" "pt" "m"
          false false none ((2 : ℚ)/10000000) 42)) := by
  constructor
  · norm_num
  · funext hashFn
    have h1 : fmt6 ((1 : ℚ)/10000000) = "0.000000" :=
      fmt6_smallpos _ (by norm_num) (by norm_num)
    have h2 : fmt6 ((2 : ℚ)/10000000) = "0.000000" :=
      fmt6_smallpos _ (by norm_num) (by norm_num)
    simp only [build_fingerprints, configFingerprint, h1, h2]

/-- C9 (amended): `build_run_key` is a pure function of its inputs, and, for a
collision-free digest, any single-field change in `build_fingerprints` input
changes the corresponding fingerprint — with temperature compared after its
6-decimal formatting: temperatures with the same formatting yield identical
fingerprints, distinct formattings change the config fingerprint — and any
change in a dataset/prompt/config fingerprint changes the composed experiment
signature. -/
theorem run_identity_and_fingerprints (hashFn : JVal → String)
    (dn dn2 dv dv2 dc dc2 pv pv2 pt pt2 mn mn2 : String)
    (re re2 je je2 : Bool) (jm jm2 : Option String) (t t2 : ℚ) (sd sd2 : ℤ) :
    build_run_key hashFn dn dv pv mn re je sd = build_run_key hashFn dn dv pv mn re je sd
    ∧ (Function.Injective hashFn →
        (dn ≠ dn2 →
          (build_fingerprints hashFn dn dv dc pv pt mn re je jm t sd).dataset_fingerprint
            ≠ (build_fingerprints hashFn dn2 dv dc pv pt mn re je jm t sd).dataset_fingerprint)
        ∧ (dv ≠ dv2 →
          (build_fingerprints hashFn dn dv dc pv pt mn re je jm t sd).dataset_fingerprint
            ≠ (build_fingerprints hashFn dn dv2 dc pv pt mn re je jm t sd).dataset_fingerprint)
        ∧ (dc ≠ dc2 →
          (build_fingerprints hashFn dn dv dc pv pt mn re je jm t sd).dataset_fingerprint
            ≠ (build_fingerprints hashFn dn dv dc2 pv pt mn re je jm t sd).dataset_fingerprint)
        ∧ (pv ≠ pv2 →
          (build_fingerprints hashFn dn dv dc pv pt mn re je jm t sd).prompt_fingerprint
            ≠ (build_fingerprints hashFn dn dv dc pv2 pt mn re je jm t sd).prompt_fingerprint)
        ∧ (pt ≠ pt2 →
          (build_fingerprints hashFn dn dv dc pv pt mn re je jm t sd).prompt_fingerprint
            ≠ (build_fingerprints hashFn dn dv dc pv pt2 mn re je jm t sd).prompt_fingerprint)
        ∧ (mn ≠ mn2 →
          (build_fingerprints hashFn dn dv dc pv pt mn re je jm t sd).config_fingerprint
            ≠ (build_fingerprints hashFn dn dv dc pv pt mn2 re je jm t sd).config_fingerprint)
        ∧ (re ≠ re2 →
          (build_fingerprints hashFn dn dv dc pv pt mn re je jm t sd).config_fingerprint
            ≠ (build_fingerprints hashFn dn dv dc pv pt mn re2 je jm t sd).config_fingerprint)
        ∧ (je ≠ je2 →
          (build_fingerprints hashFn dn dv dc pv pt mn re je jm t sd).config_fingerprint
            ≠ (build_fingerprints hashFn dn dv dc pv pt mn re je2 jm t sd).config_fingerprint)
        ∧ (jm ≠ jm2 →
          (build_fingerprints hashFn dn dv dc pv pt mn re je jm t sd).config_fingerprint
            ≠ (build_fingerprints hashFn dn dv dc pv pt mn re je jm2 t sd).config_fingerprint)
        ∧ (sd ≠ sd2 →
          (build_fingerprints hashFn dn dv dc pv pt mn re je jm t sd).config_fingerprint
            ≠ (build_fingerprints hashFn dn dv dc pv pt mn re je jm t sd2).config_fingerprint)
        ∧ (fmt6 t ≠ fmt6 t2 →
          (build_fingerprints hashFn dn dv dc pv pt mn re je jm t sd).config_fingerprint
            ≠ (build_fingerprints hashFn dn dv dc pv pt mn re je jm t2 sd).config_fingerprint)
        ∧ (∀ d1 p1 c1 d2 p2 c2 : String, d1 ≠ d2 ∨ p1 ≠ p2 ∨ c1 ≠ c2 →
            experimentSignature hashFn d1 p1 c1 ≠ experimentSignature hashFn d2 p2 c2))
    ∧ (fmt6 t = fmt6 t2 →
        build_fingerprints hashFn dn dv dc pv pt mn re je jm t sd
          = build_fingerprints hashFn dn dv dc pv pt mn re je jm t2 sd) := by
  refine ⟨rfl, fun hInj => ?_, fun hf => ?_⟩
  swap
  · simp only [build_fingerprints, configFingerprint, hf]
  refine ⟨fun h => ?_, fun h => ?_, fun h => ?_, fun h => ?_, fun h => ?_, fun h => ?_,
    fun h => ?_, fun h => ?_, fun h => ?_, fun h => ?_, fun h => ?_, ?_⟩
  · exact stable_hash_congr_ne hashFn hInj "dataset_name" (JVal.str dn) (JVal.str dn2)
      (by simp) (by intro y hy; simp at hy; exact hy) (fun hx => h (JVal.str.inj hx))
  · exact stable_hash_congr_ne hashFn hInj "dataset_version" (JVal.str dv) (JVal.str dv2)
      (by simp) (by intro y hy; simp at hy; exact hy) (fun hx => h (JVal.str.inj hx))
  · exact stable_hash_congr_ne hashFn hInj "dataset_checksum" (JVal.str dc) (JVal.str dc2)
      (by simp) (by intro y hy; simp at hy; exact hy) (fun hx => h (JVal.str.inj hx))
  · exact stable_hash_congr_ne hashFn hInj "prompt_version" (JVal.str pv) (JVal.str pv2)
      (by simp) (by intro y hy; simp at hy; exact hy) (fun hx => h (JVal.str.inj hx))
  · exact stable_hash_congr_ne hashFn hInj "prompt_template" (JVal.str pt) (JVal.str pt2)
      (by simp) (by intro y hy; simp at hy; exact hy) (fun hx => h (JVal.str.inj hx))
  · exact stable_hash_congr_ne hashFn hInj "model_name" (JVal.str mn) (JVal.str mn2)
      (by simp) (by intro y hy; simp at hy; exact hy) (fun hx => h (JVal.str.inj hx))
  · exact stable_hash_congr_ne hashFn hInj "retrieval_enabled" (JVal.bool re) (JVal.bool re2)
      (by simp) (by intro y hy; simp at hy; exact hy) (fun hx => h (JVal.bool.inj hx))
  · exact stable_hash_congr_ne hashFn hInj "llm_judge_enabled" (JVal.bool je) (JVal.bool je2)
      (by simp) (by intro y hy; simp at hy; exact hy) (fun hx => h (JVal.bool.inj hx))
  · exact stable_hash_congr_ne hashFn hInj "llm_judge_model" (jOfOptStr jm) (jOfOptStr jm2)
      (by simp) (by intro y hy; simp at hy; exact hy) (fun hx => h (jOfOptStr_inj hx))
  · exact stable_hash_congr_ne hashFn hInj "seed" (JVal.num (sd : ℚ)) (JVal.num (sd2 : ℚ))
      (by simp) (by intro y hy; simp at hy; exact hy)
      (fun hx => h (by exact_mod_cast JVal.num.inj hx))
  · exact stable_hash_congr_ne hashFn hInj "temperature" (JVal.str (fmt6 t))
      (JVal.str (fmt6 t2)) (by simp) (by intro y hy; simp at hy; exact hy)
      (fun hx => h (JVal.str.inj hx))
  · intro d1 p1 c1 d2 p2 c2 hne
    rcases hne with h | h | h
    · exact stable_hash_congr_ne hashFn hInj "dataset_fingerprint" (JVal.str d1)
        (JVal.str d2) (by simp) (by intro y hy; simp at hy; exact hy)
        (fun hx => h (JVal.str.inj hx))
    · exact stable_hash_congr_ne hashFn hInj "prompt_fingerprint" (JVal.str p1)
        (JVal.str p2) (by simp) (by intro y hy; simp at hy; exact hy)
        (fun hx => h (JVal.str.inj hx))
    · exact stable_hash_congr_ne hashFn hInj "config_fingerprint" (JVal.str c1)
        (JVal.str c2) (by simp) (by intro y hy; simp at hy; exact hy)
        (fun hx => h (JVal.str.inj hx))

end LlmEvalPlatform
